import Mathlib

/-!
Verification of the GVT-g shadow GTT/PPGTT core
(drivers/gpu/drm/i915/gvt/gtt.c) against its natural-language
specification.  The C code is shallowly embedded: 64-bit entry values are
natural numbers (with explicit masking where the C code masks), fallible
routines return `Except Int` carrying the negative errno the C code
returns, and the mutable structures touched by each routine are passed
and returned explicitly.
-/

namespace GvtGtt

/-!
## GTT type enumeration

Modelled from the spec: the `intel_gvt_gtt_type_t` enumeration lives in
gtt.h, which is not among the sources; the spec (§3, §4.1) describes a
fixed enumeration of entry/table types with a per-level transition table.
The numeric codes below are pinned down by gtt.c itself: the range macros
`gtt_type_is_entry` / `gtt_type_is_pt` / `gtt_type_is_root_pointer`
(gtt.c:121-133) and the contents of `gtt_type_table` (gtt.c:170-223) are
only consistent with this ordering.
-/

def GTT_TYPE_INVALID : Int := -1
def GTT_TYPE_GGTT_PTE : Int := 0
def GTT_TYPE_PPGTT_PTE_4K_ENTRY : Int := 1
def GTT_TYPE_PPGTT_PTE_2M_ENTRY : Int := 2
def GTT_TYPE_PPGTT_PTE_1G_ENTRY : Int := 3
def GTT_TYPE_PPGTT_PTE_ENTRY : Int := 4
def GTT_TYPE_PPGTT_PDE_ENTRY : Int := 5
def GTT_TYPE_PPGTT_PDP_ENTRY : Int := 6
def GTT_TYPE_PPGTT_PML4_ENTRY : Int := 7
def GTT_TYPE_PPGTT_ROOT_ENTRY : Int := 8
def GTT_TYPE_PPGTT_ROOT_L3_ENTRY : Int := 9
def GTT_TYPE_PPGTT_ROOT_L4_ENTRY : Int := 10
def GTT_TYPE_PPGTT_ENTRY : Int := 11
def GTT_TYPE_PPGTT_PTE_PT : Int := 12
def GTT_TYPE_PPGTT_PDE_PT : Int := 13
def GTT_TYPE_PPGTT_PDP_PT : Int := 14
def GTT_TYPE_PPGTT_PML4_PT : Int := 15
def GTT_TYPE_MAX : Int := 16

/-- gtt.c:121 `gtt_type_is_entry`. -/
def gtt_type_is_entry (t : Int) : Bool :=
  t > GTT_TYPE_INVALID && t < GTT_TYPE_PPGTT_ENTRY
    && t != GTT_TYPE_PPGTT_PTE_ENTRY && t != GTT_TYPE_PPGTT_ROOT_ENTRY

/-- gtt.c:126 `gtt_type_is_pt`. -/
def gtt_type_is_pt (t : Int) : Bool :=
  t ≥ GTT_TYPE_PPGTT_PTE_PT && t < GTT_TYPE_MAX

/-- gtt.c:129 `gtt_type_is_pte_pt`. -/
def gtt_type_is_pte_pt (t : Int) : Bool :=
  t == GTT_TYPE_PPGTT_PTE_PT

/-- gtt.c:132 `gtt_type_is_root_pointer`. -/
def gtt_type_is_root_pointer (t : Int) : Bool :=
  gtt_type_is_entry t && t > GTT_TYPE_PPGTT_ROOT_ENTRY

/-!
## Per-level transition table (gtt.c:157-238)

`gtt_type_table` is a C array indexed by type code; indices the
designated initializers do not mention are zero-initialized, i.e. all
three fields read as 0 (= `GTT_TYPE_GGTT_PTE`) there, exactly as in C.
Each triple is (entry_type, next_pt_type, pse_entry_type).
-/

def gtt_type_table (t : Int) : Int × Int × Int :=
  if t = GTT_TYPE_PPGTT_ROOT_L4_ENTRY then
    (GTT_TYPE_PPGTT_ROOT_L4_ENTRY, GTT_TYPE_PPGTT_PML4_PT, GTT_TYPE_INVALID)
  else if t = GTT_TYPE_PPGTT_PML4_PT then
    (GTT_TYPE_PPGTT_PML4_ENTRY, GTT_TYPE_PPGTT_PDP_PT, GTT_TYPE_INVALID)
  else if t = GTT_TYPE_PPGTT_PML4_ENTRY then
    (GTT_TYPE_PPGTT_PML4_ENTRY, GTT_TYPE_PPGTT_PDP_PT, GTT_TYPE_INVALID)
  else if t = GTT_TYPE_PPGTT_PDP_PT then
    (GTT_TYPE_PPGTT_PDP_ENTRY, GTT_TYPE_PPGTT_PDE_PT, GTT_TYPE_PPGTT_PTE_1G_ENTRY)
  else if t = GTT_TYPE_PPGTT_ROOT_L3_ENTRY then
    (GTT_TYPE_PPGTT_ROOT_L3_ENTRY, GTT_TYPE_PPGTT_PDE_PT, GTT_TYPE_PPGTT_PTE_1G_ENTRY)
  else if t = GTT_TYPE_PPGTT_PDP_ENTRY then
    (GTT_TYPE_PPGTT_PDP_ENTRY, GTT_TYPE_PPGTT_PDE_PT, GTT_TYPE_PPGTT_PTE_1G_ENTRY)
  else if t = GTT_TYPE_PPGTT_PDE_PT then
    (GTT_TYPE_PPGTT_PDE_ENTRY, GTT_TYPE_PPGTT_PTE_PT, GTT_TYPE_PPGTT_PTE_2M_ENTRY)
  else if t = GTT_TYPE_PPGTT_PDE_ENTRY then
    (GTT_TYPE_PPGTT_PDE_ENTRY, GTT_TYPE_PPGTT_PTE_PT, GTT_TYPE_PPGTT_PTE_2M_ENTRY)
  else if t = GTT_TYPE_PPGTT_PTE_PT then
    (GTT_TYPE_PPGTT_PTE_4K_ENTRY, GTT_TYPE_INVALID, GTT_TYPE_INVALID)
  else if t = GTT_TYPE_PPGTT_PTE_4K_ENTRY then
    (GTT_TYPE_PPGTT_PTE_4K_ENTRY, GTT_TYPE_INVALID, GTT_TYPE_INVALID)
  else if t = GTT_TYPE_PPGTT_PTE_2M_ENTRY then
    (GTT_TYPE_PPGTT_PDE_ENTRY, GTT_TYPE_INVALID, GTT_TYPE_PPGTT_PTE_2M_ENTRY)
  else if t = GTT_TYPE_PPGTT_PTE_1G_ENTRY then
    (GTT_TYPE_PPGTT_PDP_ENTRY, GTT_TYPE_INVALID, GTT_TYPE_PPGTT_PTE_1G_ENTRY)
  else if t = GTT_TYPE_GGTT_PTE then
    (GTT_TYPE_GGTT_PTE, GTT_TYPE_INVALID, GTT_TYPE_INVALID)
  else
    (GTT_TYPE_GGTT_PTE, GTT_TYPE_GGTT_PTE, GTT_TYPE_GGTT_PTE)

/-- gtt.c:230 `get_entry_type`. -/
def get_entry_type (t : Int) : Int := (gtt_type_table t).1

/-- gtt.c:225 `get_next_pt_type`. -/
def get_next_pt_type (t : Int) : Int := (gtt_type_table t).2.1

/-- gtt.c:235 `get_pse_type`. -/
def get_pse_type (t : Int) : Int := (gtt_type_table t).2.2

/-!
## Page-table entry codec (gtt.c:402-468)
-/

/-- `struct intel_gvt_gtt_entry`: a raw 64-bit value plus a type tag. -/
structure GttEntry where
  typ : Int
  val64 : Nat
  deriving Repr, DecidableEq

def GTT_HAW : Nat := 46

/-- gtt.c:404 `ADDR_1G_MASK`. -/
def ADDR_1G_MASK : Nat := ((1 <<< (GTT_HAW - 30)) - 1) <<< 30

/-- gtt.c:405 `ADDR_2M_MASK`. -/
def ADDR_2M_MASK : Nat := ((1 <<< (GTT_HAW - 21)) - 1) <<< 21

/-- gtt.c:406 `ADDR_4K_MASK`. -/
def ADDR_4K_MASK : Nat := ((1 <<< (GTT_HAW - 12)) - 1) <<< 12

/-- gtt.c:408 `gen8_gtt_get_pfn`. -/
def gen8_gtt_get_pfn (e : GttEntry) : Nat :=
  if e.typ = GTT_TYPE_PPGTT_PTE_1G_ENTRY then
    (e.val64 &&& ADDR_1G_MASK) >>> 12
  else if e.typ = GTT_TYPE_PPGTT_PTE_2M_ENTRY then
    (e.val64 &&& ADDR_2M_MASK) >>> 12
  else
    (e.val64 &&& ADDR_4K_MASK) >>> 12

/-- gtt.c:421 `gen8_gtt_set_pfn`.  `~mask` on a u64 is complement within
64 bits, i.e. xor with `2^64 - 1`. -/
def gen8_gtt_set_pfn (e : GttEntry) (pfn : Nat) : GttEntry :=
  if e.typ = GTT_TYPE_PPGTT_PTE_1G_ENTRY then
    { e with val64 := (e.val64 &&& (ADDR_1G_MASK ^^^ (2 ^ 64 - 1)))
        ||| ((pfn &&& (ADDR_1G_MASK >>> 12)) <<< 12) }
  else if e.typ = GTT_TYPE_PPGTT_PTE_2M_ENTRY then
    { e with val64 := (e.val64 &&& (ADDR_2M_MASK ^^^ (2 ^ 64 - 1)))
        ||| ((pfn &&& (ADDR_2M_MASK >>> 12)) <<< 12) }
  else
    { e with val64 := (e.val64 &&& (ADDR_4K_MASK ^^^ (2 ^ 64 - 1)))
        ||| ((pfn &&& (ADDR_4K_MASK >>> 12)) <<< 12) }

/-- gtt.c:437 `gen8_gtt_test_pse`: resolves a directory-level entry whose
hardware page-size bit (bit 7) is set to its large-page variant type.
The C function mutates `e->type` and returns whether it resolved; the
returned entry carries the (possibly) updated type. -/
def gen8_gtt_test_pse (e : GttEntry) : GttEntry :=
  if get_pse_type e.typ = GTT_TYPE_INVALID then
    e
  else
    let e1 : GttEntry := { e with typ := get_entry_type e.typ }
    if e1.val64 &&& (1 <<< 7) = 0 then
      e1
    else
      { e1 with typ := get_pse_type e1.typ }

/-- gtt.c:451 `gen8_gtt_test_present`. -/
def gen8_gtt_test_present (e : GttEntry) : Bool :=
  if e.typ = GTT_TYPE_PPGTT_ROOT_L3_ENTRY
      || e.typ = GTT_TYPE_PPGTT_ROOT_L4_ENTRY then
    e.val64 != 0
  else
    e.val64 &&& (1 <<< 0) != 0

/-- gtt.c:465 `gtt_entry_clear_present`. -/
def gtt_entry_clear_present (e : GttEntry) : GttEntry :=
  { e with val64 := e.val64 &&& ((1 : Nat) ^^^ (2 ^ 64 - 1)) }

/-!
## GMA index functions (gtt.c:470-493)
-/

def GTT_PAGE_SHIFT : Nat := 12

/-- gtt.c:473 `gma_to_ggtt_pte_index`. -/
def gma_to_ggtt_pte_index (gma : Nat) : Nat := gma >>> GTT_PAGE_SHIFT

/-- gtt.c:489 `gen8_gma_to_pte_index`: `gma >> 12 & 0x1ff`. -/
def gen8_gma_to_pte_index (gma : Nat) : Nat := (gma >>> 12) &&& 0x1ff

/-- gtt.c:490 `gen8_gma_to_pde_index`: `gma >> 21 & 0x1ff`. -/
def gen8_gma_to_pde_index (gma : Nat) : Nat := (gma >>> 21) &&& 0x1ff

/-- gtt.c:491 `gen8_gma_to_l3_pdp_index`: `gma >> 30 & 0x3`. -/
def gen8_gma_to_l3_pdp_index (gma : Nat) : Nat := (gma >>> 30) &&& 0x3

/-- gtt.c:492 `gen8_gma_to_l4_pdp_index`: `gma >> 30 & 0x1ff`. -/
def gen8_gma_to_l4_pdp_index (gma : Nat) : Nat := (gma >>> 30) &&& 0x1ff

/-- gtt.c:493 `gen8_gma_to_pml4_index`: `gma >> 39 & 0x1ff`. -/
def gen8_gma_to_pml4_index (gma : Nat) : Nat := (gma >>> 39) &&& 0x1ff

/-- The contiguous bit field `hi:lo` of `gma`, as the spec documents the
index masks (§4.2). -/
def bit_field (gma hi lo : Nat) : Nat := (gma >>> lo) % 2 ^ (hi - lo + 1)

/-!
## Guest-to-machine frame translation (gtt.c:514-542)
-/

/-- Modelled from the spec: `INTEL_GVT_INVALID_ADDR` is defined in gvt.h
(not among the sources) as the all-ones sentinel returned by the
hypervisor frame translation service and by `intel_vgpu_gma_to_gpa` on
failure (§4.6, §6). -/
def INTEL_GVT_INVALID_ADDR : Nat := 2 ^ 64 - 1

/-- The two function-local `static` variables of `gtt_entry_p2m`
(gtt.c:519): a one-entry cache of the last successful gfn→mfn
translation.  C zero-initializes them. -/
structure P2MCache where
  saved_gfn : Nat
  saved_mfn : Nat
  deriving Repr, DecidableEq

def P2MCache.init : P2MCache := { saved_gfn := 0, saved_mfn := 0 }

/-- gtt.c:514 `gtt_entry_p2m`: copy `p` into `m`; if `p` is present,
translate its guest frame through the hypervisor service
(`intel_gvt_hypervisor_gfn_to_mfn`, modelled by the oracle `hyp`) unless
the gfn matches the cached one, fail with -ENXIO (-6) on an invalid
translation, otherwise install the machine frame into `m` and refresh
the cache. -/
def gtt_entry_p2m (hyp : Nat → Nat) (c : P2MCache) (p : GttEntry) :
    Except Int (GttEntry × P2MCache) :=
  let m := p
  if !gen8_gtt_test_present p then
    .ok (m, c)
  else
    let gfn := gen8_gtt_get_pfn p
    let mfn := if gfn ≠ c.saved_gfn then hyp gfn else c.saved_mfn
    if mfn = INTEL_GVT_INVALID_ADDR then
      .error (-6)
    else
      .ok (gen8_gtt_set_pfn m mfn, { saved_gfn := gfn, saved_mfn := mfn })

/-!
## GGTT MMIO emulation (gtt.c:2086-2200)

State touched by the GGTT paths: the guest-visible GGTT page table
(`ggtt_mm->virtual_page_table`), the hardware shadow GGTT written through
`ggtt_set_shadow_entry`, and `gtt_entry_p2m`'s static cache.  Entry size
is 8 bytes (`device_info.gtt_entry_size`), so
`gtt_entry_size_shift` = 3.
-/

structure GGTTState where
  guestTable : Nat → Nat
  shadowTable : Nat → Nat
  p2m : P2MCache

/-- Read-only per-vGPU/device parameters consumed by the GGTT paths. -/
structure GGTTEnv where
  apertureBase : Nat
  apertureSize : Nat
  hiddenBase : Nat
  hiddenSize : Nat
  scratchGgttMfn : Nat
  gttStartOffset : Nat
  hyp : Nat → Nat

/-- Modelled from the spec: `vgpu_gmadr_is_valid` is a gvt.h macro (not
among the sources); per §7 a guest gma is valid exactly when it lies in
the vGPU's assigned aperture range or hidden range. -/
def vgpu_gmadr_is_valid (env : GGTTEnv) (addr : Nat) : Bool :=
  (env.apertureBase ≤ addr && addr ≤ env.apertureBase + env.apertureSize - 1)
    || (env.hiddenBase ≤ addr && addr ≤ env.hiddenBase + env.hiddenSize - 1)

/-- `memcpy((void *)&val64 + boff, &data, len)` on a little-endian u64:
replace `len` bytes of `old` starting at byte offset `boff` with the low
`len` bytes of `data`. -/
def memcpy_into_val64 (old : Nat) (boff : Nat) (data : Nat) (len : Nat) : Nat :=
  (old % 2 ^ (8 * boff))
    + (data % 2 ^ (8 * len)) * 2 ^ (8 * boff)
    + (old >>> (8 * boff + 8 * len)) <<< (8 * boff + 8 * len)

/-- `memcpy(&out, (void *)&val64 + boff, len)`: extract `len` bytes of
`val` starting at byte offset `boff`. -/
def extract_from_val64 (val : Nat) (boff : Nat) (len : Nat) : Nat :=
  (val >>> (8 * boff)) % 2 ^ (8 * len)

/-- `ggtt_get_guest_entry(mm, e, index)` = `intel_vgpu_mm_get_entry` on
the GGTT mm's virtual page table (gtt.c:547-563): tag the raw value with
the mm's entry type (`GTT_TYPE_GGTT_PTE`) and run `test_pse`. -/
def ggtt_get_guest_entry (st : GGTTState) (index : Nat) : GttEntry :=
  gen8_gtt_test_pse { typ := GTT_TYPE_GGTT_PTE, val64 := st.guestTable index }

/-- `ggtt_set_guest_entry` = `intel_vgpu_mm_set_entry` on the virtual
page table (gtt.c:565-573). -/
def ggtt_set_guest_entry (st : GGTTState) (e : GttEntry) (index : Nat) :
    GGTTState :=
  { st with guestTable := fun n => if n = index then e.val64 else st.guestTable n }

/-- `ggtt_set_shadow_entry`: for the GGTT mm the shadow table is the
hardware GTT written through `write_pte64` (gtt.c:254-260, 342-365). -/
def ggtt_set_shadow_entry (st : GGTTState) (e : GttEntry) (index : Nat) :
    GGTTState :=
  { st with shadowTable := fun n => if n = index then e.val64 else st.shadowTable n }

/-- gtt.c:2086 `emulate_gtt_mmio_read`: returns the requested bytes of
the guest GGTT entry; mutates nothing. -/
def emulate_gtt_mmio_read (st : GGTTState) (off : Nat) (bytes : Nat) :
    Except Int Nat :=
  if bytes ≠ 4 ∧ bytes ≠ 8 then
    .error (-22)
  else
    let index := off >>> 3
    let e := ggtt_get_guest_entry st index
    .ok (extract_from_val64 e.val64 (off % 8) bytes)

/-- gtt.c:2115 `intel_vgpu_emulate_gtt_mmio_read`: size check, then
subtract `gtt_start_offset` (u32 arithmetic) and delegate. -/
def intel_vgpu_emulate_gtt_mmio_read (env : GGTTEnv) (st : GGTTState)
    (off : Nat) (bytes : Nat) : Except Int Nat :=
  if bytes ≠ 4 ∧ bytes ≠ 8 then
    .error (-22)
  else
    emulate_gtt_mmio_read st ((off + 2 ^ 32 - env.gttStartOffset) % 2 ^ 32) bytes

/-- gtt.c:2129 `emulate_gtt_mmio_write`: size check; drop writes whose
gma is outside the vGPU's range (return 0 untouched); merge the written
bytes into the guest entry; translate a present entry via
`gtt_entry_p2m`, falling back to the scratch GGTT page on translation
failure; point an absent entry at the scratch GGTT page; then write the
shadow entry and the guest entry. -/
def emulate_gtt_mmio_write (env : GGTTEnv) (st : GGTTState)
    (off : Nat) (data : Nat) (bytes : Nat) : Except Int GGTTState :=
  if bytes ≠ 4 ∧ bytes ≠ 8 then
    .error (-22)
  else
    let g_gtt_index := off >>> 3
    let gma := g_gtt_index <<< GTT_PAGE_SHIFT
    if !vgpu_gmadr_is_valid env gma then
      .ok st
    else
      let e0 := ggtt_get_guest_entry st g_gtt_index
      let e : GttEntry :=
        { e0 with val64 := memcpy_into_val64 e0.val64 (off % 8) data bytes }
      let step : GttEntry × P2MCache :=
        if gen8_gtt_test_present e then
          match gtt_entry_p2m env.hyp st.p2m e with
          | .ok (m, c) => (m, c)
          | .error _ => (gen8_gtt_set_pfn e env.scratchGgttMfn, st.p2m)
        else
          (gen8_gtt_set_pfn e env.scratchGgttMfn, st.p2m)
      let st1 := { st with p2m := step.2 }
      let st2 := ggtt_set_shadow_entry st1 step.1 g_gtt_index
      let st3 := ggtt_set_guest_entry st2 e g_gtt_index
      .ok st3

/-- gtt.c:2188 `intel_vgpu_emulate_gtt_mmio_write`: size check, subtract
`gtt_start_offset`, delegate. -/
def intel_vgpu_emulate_gtt_mmio_write (env : GGTTEnv) (st : GGTTState)
    (off : Nat) (data : Nat) (bytes : Nat) : Except Int GGTTState :=
  if bytes ≠ 4 ∧ bytes ≠ 8 then
    .error (-22)
  else
    emulate_gtt_mmio_write env st
      ((off + 2 ^ 32 - env.gttStartOffset) % 2 ^ 32) data bytes

/-!
## Guest-write interception on one tracked PPGTT page (gtt.c:1093-1496)

The state below is that of one shadow page (`intel_vgpu_ppgtt_spt`) and
its tracked guest page: the 512-entry shadow table, the guest page
contents, the post-shadow bitmap/list membership, the guest page's write
counter, write-protection flag and OOS association, plus the `gtt_entry_p2m`
static cache.  Collaborating subsystems that these routines call into —
`ppgtt_populate_shadow_page_by_guest_entry` (find-or-allocate the child
shadow page, gtt.c:992), `ppgtt_find_shadow_page` and
`ppgtt_invalidate_shadow_page` (gtt.c:882, 950), and the hypervisor
write-protection service — act on *other* pages' state and are passed in
as oracles in `PpgttEnv`; their observable effect on this page's slot is
the returned child machine frame / found / error result.  Every shadow
mutation performed on this page is additionally recorded in an ordered
trace, so that ordering claims can be stated.
-/

/-- One observable shadow mutation of the tracked page. -/
inductive TraceEv where
  | writeShadow (index : Nat) (val : Nat)
  | invalidate (mfn : Nat)
  | populate (gfn : Nat)
  deriving Repr, DecidableEq

structure PpgttEnv where
  /-- `spt->shadow_page.type`. -/
  shadowPageType : Int
  /-- `spt->guest_page_type` (equal to the shadow type in the current
  code, cf. the comment at gtt.c:858). -/
  guestPageType : Int
  /-- `vgpu->gtt.scratch_pt[type].page_mfn`. -/
  scratchMfn : Int → Nat
  /-- `intel_gvt_hypervisor_gfn_to_mfn`. -/
  hyp : Nat → Nat
  /-- Oracle for `ppgtt_populate_shadow_page_by_guest_entry` (gtt.c:992):
  the machine frame of the found-or-populated child shadow page, or the
  error it propagates. -/
  populateMfn : GttEntry → Except Int Nat
  /-- Whether `ppgtt_find_shadow_page` finds a shadow page for an mfn. -/
  findShadow : Nat → Bool
  /-- Oracle for `ppgtt_invalidate_shadow_page` on the child at an mfn. -/
  invalidateRes : Nat → Except Int Unit
  /-- Module parameter `i915_modparams.enable_gvt_oos`. -/
  enableOos : Bool
  /-- Result of `intel_gvt_hypervisor_unset_wp_page`. -/
  unsetWpRes : Except Int Unit

structure PpgttState where
  shadow : Nat → Nat
  guest : Nat → Nat
  postBitmap : Nat → Bool
  postListed : Bool
  writeCnt : Nat
  hasOos : Bool
  oosMem : Nat → Nat
  oosOnVmList : Bool
  writeprotection : Bool
  p2m : P2MCache
  trace : List TraceEv

/-- `ppgtt_get_shadow_entry` (gtt.c:628, via `ppgtt_spt_get_entry`): tag
the raw shadow value with `get_entry_type(shadow_page.type)` and resolve
PSE.  The call sites in the routines below ignore the -EINVAL path of
`ppgtt_spt_get_entry` (the macro-statement calls at gtt.c:1149, 1360,
1468 discard the return value), so the read is modelled as total. -/
def ppgtt_shadow_entry (env : PpgttEnv) (st : PpgttState) (index : Nat) :
    GttEntry :=
  gen8_gtt_test_pse
    { typ := get_entry_type env.shadowPageType, val64 := st.shadow index }

/-- `ppgtt_get_guest_entry` (gtt.c:620): same, reading the guest page. -/
def ppgtt_guest_entry (env : PpgttEnv) (st : PpgttState) (index : Nat) :
    GttEntry :=
  gen8_gtt_test_pse
    { typ := get_entry_type env.guestPageType, val64 := st.guest index }

/-- `ppgtt_set_shadow_entry` (gtt.c:632): store the entry's raw value in
the shadow table; the mutation is recorded in the trace. -/
def ppgtt_write_shadow_entry (st : PpgttState) (e : GttEntry) (index : Nat) :
    PpgttState :=
  { st with
      shadow := fun n => if n = index then e.val64 else st.shadow n
      trace := st.trace ++ [TraceEv.writeShadow index e.val64] }

/-- gtt.c:1036 `ppgtt_generate_shadow_entry`: copy the guest entry's
type and flag bits, then point it at the child shadow page's frame. -/
def ppgtt_generate_shadow_entry (ge : GttEntry) (smfn : Nat) : GttEntry :=
  gen8_gtt_set_pfn { typ := ge.typ, val64 := ge.val64 } smfn

/-- gtt.c:1093 `ppgtt_handle_guest_entry_removal`: nothing to do if the
old shadow entry is absent or already points at the level's scratch
frame; otherwise, for a directory-level entry, find the child shadow
page (-ENXIO when it cannot be found) and invalidate it. -/
def ppgtt_handle_guest_entry_removal (env : PpgttEnv) (st : PpgttState)
    (se : GttEntry) : Except Int PpgttState :=
  if !gen8_gtt_test_present se then
    .ok st
  else if gen8_gtt_get_pfn se = env.scratchMfn env.shadowPageType then
    .ok st
  else if gtt_type_is_pt (get_next_pt_type se.typ) then
    if !env.findShadow (gen8_gtt_get_pfn se) then
      .error (-6)
    else
      match env.invalidateRes (gen8_gtt_get_pfn se) with
      | .ok _ =>
          .ok { st with
                  trace := st.trace ++ [TraceEv.invalidate (gen8_gtt_get_pfn se)] }
      | .error c => .error c
  else
    .ok st

/-- gtt.c:1130 `ppgtt_handle_guest_entry_add`: for a directory-level
guest entry, find-or-populate the child shadow page and write a shadow
entry pointing at its machine frame; for a leaf, translate the guest
frame via `gtt_entry_p2m` and write the translated entry.  Errors
propagate. -/
def ppgtt_handle_guest_entry_add (env : PpgttEnv) (st : PpgttState)
    (we : GttEntry) (index : Nat) : Except Int PpgttState :=
  if gtt_type_is_pt (get_next_pt_type we.typ) then
    match env.populateMfn we with
    | .error c => .error c
    | .ok smfn =>
        let st1 :=
          { st with trace := st.trace ++ [TraceEv.populate (gen8_gtt_get_pfn we)] }
        let m := ppgtt_generate_shadow_entry we smfn
        .ok (ppgtt_write_shadow_entry st1 m index)
  else
    match gtt_entry_p2m env.hyp st.p2m we with
    | .error c => .error c
    | .ok (m, cache) =>
        .ok (ppgtt_write_shadow_entry { st with p2m := cache } m index)

/-- gtt.c:1340 `ppgtt_handle_guest_write_page_table`: read the old
shadow entry; if the new guest entry is present, add its shadow entry
first; then remove the stale mapping the old shadow entry represents;
finally, if the new guest entry is absent, write the slot with the old
entry redirected to the level's scratch frame. -/
def ppgtt_handle_guest_write_page_table (env : PpgttEnv) (st : PpgttState)
    (we : GttEntry) (index : Nat) : Except Int PpgttState :=
  let new_present := gen8_gtt_test_present we
  let se := ppgtt_shadow_entry env st index
  let afterAdd : Except Int PpgttState :=
    if new_present then ppgtt_handle_guest_entry_add env st we index else .ok st
  match afterAdd with
  | .error c => .error c
  | .ok st1 =>
      match ppgtt_handle_guest_entry_removal env st1 se with
      | .error c => .error c
      | .ok st2 =>
          if !new_present then
            .ok (ppgtt_write_shadow_entry st2
              (gen8_gtt_set_pfn se (env.scratchMfn env.shadowPageType)) index)
          else
            .ok st2

/-- gtt.c:1384 `can_do_out_of_sync`. -/
def can_do_out_of_sync (env : PpgttEnv) (writeCnt : Nat) : Bool :=
  env.enableOos && gtt_type_is_pte_pt env.guestPageType && writeCnt ≥ 2

/-- gtt.c:1392 `ppgtt_set_post_shadow`: mark the entry index dirty and
put the page on the per-vGPU post-shadow list if not already there. -/
def ppgtt_set_post_shadow (st : PpgttState) (index : Nat) : PpgttState :=
  { st with
      postBitmap := fun n => if n = index then true else st.postBitmap n
      postListed := true }

/-- gtt.c:1230 `attach_oos_page`: snapshot the guest page into the OOS
buffer and record the association.  (Moving the buffer onto the global
in-use list is state of the device, not of this page.) -/
def attach_oos_page (st : PpgttState) : PpgttState :=
  { st with oosMem := st.guest, hasOos := true }

/-- gtt.c:1268 `ppgtt_allocate_oos_page`: when the free list is
exhausted the oldest in-use buffer is synced and detached first — that
victim is necessarily a *different* guest page (this one has no buffer),
so its reclamation does not touch this page's state — then the buffer is
attached to this page. -/
def ppgtt_allocate_oos_page (st : PpgttState) : PpgttState :=
  attach_oos_page st

/-- gtt.c:1293 `ppgtt_set_guest_page_oos`: requires an attached OOS
buffer; put it on the per-vGPU OOS list and lift write protection via
the hypervisor service (which clears the page's writeprotection flag on
success). -/
def ppgtt_set_guest_page_oos (env : PpgttEnv) (st : PpgttState) :
    Except Int PpgttState :=
  if !st.hasOos then
    .error (-22)
  else
    let st1 := { st with oosOnVmList := true }
    match env.unsetWpRes with
    | .ok _ => .ok { st1 with writeprotection := false }
    | .error c => .error c

/-- The partial-write path of
`ppgtt_handle_guest_write_page_table_bytes` (gtt.c:1464-1476): unless
the slot is already deferred, remove the old mapping and point the slot
at the level's scratch frame; in all cases mark the slot post-shadow. -/
def ppgtt_write_partial_entry (env : PpgttEnv) (st0 : PpgttState)
    (index : Nat) : Except Int PpgttState :=
  if !st0.postBitmap index then
    match ppgtt_handle_guest_entry_removal env st0
        (ppgtt_shadow_entry env st0 index) with
    | .error c => .error c
    | .ok st1 =>
        let st2 := ppgtt_write_shadow_entry st1
          (gen8_gtt_set_pfn (ppgtt_shadow_entry env st0 index)
            (env.scratchMfn env.shadowPageType)) index
        .ok (ppgtt_set_post_shadow st2 index)
  else
    .ok (ppgtt_set_post_shadow st0 index)

/-- The OOS bookkeeping tail of
`ppgtt_handle_guest_write_page_table_bytes` (gtt.c:1478-1495): nothing
when the feature is off; otherwise bump the write counter, mirror the
write into an attached OOS buffer, and when `can_do_out_of_sync` allows,
attach a buffer if needed (the return value of `ppgtt_allocate_oos_page`
is discarded by the C code) and take the page out of sync. -/
def ppgtt_write_oos_tail (env : PpgttEnv) (st1 : PpgttState)
    (we : GttEntry) (index : Nat) : Except Int PpgttState :=
  if !env.enableOos then
    .ok st1
  else
    let st2 := { st1 with writeCnt := st1.writeCnt + 1 }
    let st3 :=
      if st2.hasOos then
        { st2 with
            oosMem := fun n => if n = index then we.val64 else st2.oosMem n }
      else st2
    if can_do_out_of_sync env st3.writeCnt then
      let st4 := if !st3.hasOos then ppgtt_allocate_oos_page st3 else st3
      ppgtt_set_guest_page_oos env st4
    else
      .ok st3

/-- gtt.c:1440 `ppgtt_handle_guest_write_page_table_bytes`: commit the
written bytes to the guest page, re-read the guest entry; a full-entry
write runs the per-entry state machine, a partial write takes
the deferred path above; then the OOS bookkeeping tail runs. -/
def ppgtt_handle_guest_write_page_table_bytes (env : PpgttEnv)
    (st : PpgttState) (pa : Nat) (data : Nat) (bytes : Nat) :
    Except Int PpgttState :=
  let index := (pa % 4096) >>> 3
  let st0 :=
    { st with
        guest := fun n =>
          if n = index then memcpy_into_val64 (st.guest n) (pa % 8) data bytes
          else st.guest n }
  let we := gen8_gtt_test_pse (ppgtt_guest_entry env st0 index)
  match (if bytes = 8 then
          ppgtt_handle_guest_write_page_table env st0 we index
        else
          ppgtt_write_partial_entry env st0 index) with
  | .error c => .error c
  | .ok st1 => ppgtt_write_oos_tail env st1 we index

/-- gtt.c:816 `ppgtt_write_protection_handler`: reject access sizes
other than 4 and 8 and writes to pages that are no longer
write-protected, then dispatch to the byte-level handler. -/
def ppgtt_write_protection_handler (env : PpgttEnv) (st : PpgttState)
    (pa : Nat) (data : Nat) (bytes : Nat) : Except Int PpgttState :=
  if bytes ≠ 4 ∧ bytes ≠ 8 then
    .error (-22)
  else if !st.writeprotection then
    .error (-22)
  else
    ppgtt_handle_guest_write_page_table_bytes env st pa data bytes

/-!
## mm objects and GMA translation (gtt.c:1832-2084)
-/

/-- Modelled from the spec: the `INTEL_GVT_MM_GGTT` / `INTEL_GVT_MM_PPGTT`
mm type tags live in gtt.h (§3's mm type tag \x7bGGTT, PPGTT\x7d); their
values only matter for distinctness. -/
def INTEL_GVT_MM_GGTT : Int := 0

def INTEL_GVT_MM_PPGTT : Int := 1

/-- The fields of `struct intel_vgpu_mm` read by the translation path.
`page_table_entry_type` is derived from the level exactly as
`intel_vgpu_create_mm` does (gtt.c:1849-1859). -/
structure MMObj where
  typ : Int
  pageTableLevel : Nat
  pageTableEntryType : Int
  hasShadowPageTable : Bool
  virtualPageTable : Nat → Nat
  shadowPageTable : Nat → Nat

/-- One `intel_vgpu_ppgtt_spt` as seen by the translation walk: its type
and the raw contents of its shadow page and of its tracked guest page. -/
structure SPT where
  typ : Int
  shadowVals : Nat → Nat
  guestVals : Nat → Nat

/-- The per-vGPU shadow page hash table (`find_shadow_page`,
gtt.c:751-762), keyed by machine frame number. -/
structure SptTable where
  spts : Nat → Option SPT

/-- `ppgtt_get_shadow_root_entry` = `intel_vgpu_mm_get_entry` on the
mm's shadow root table (gtt.c:547-563): tag with the mm's entry type,
read, resolve PSE. -/
def ppgtt_get_shadow_root_entry (mm : MMObj) (index : Nat) : GttEntry :=
  gen8_gtt_test_pse
    { typ := mm.pageTableEntryType, val64 := mm.shadowPageTable index }

/-- `ppgtt_get_shadow_entry` on a walked shadow page (gtt.c:628): the
call at gtt.c:1982 discards the -EINVAL path, so the read is total. -/
def spt_shadow_entry (s : SPT) (index : Nat) : GttEntry :=
  gen8_gtt_test_pse { typ := get_entry_type s.typ, val64 := s.shadowVals index }

/-- `ppgtt_get_guest_entry` on a walked shadow page's guest page
(gtt.c:620; the call at gtt.c:1984 discards the error path). -/
def spt_guest_entry (s : SPT) (index : Nat) : GttEntry :=
  gen8_gtt_test_pse { typ := get_entry_type s.typ, val64 := s.guestVals index }

/-- gtt.c:1967 `ppgtt_get_next_level_entry`: look up the shadow page the
current entry points at (-ENXIO when it cannot be found), then read
either its shadow entry or its guest entry at `index`. -/
def ppgtt_get_next_level_entry (tbl : SptTable) (mm : MMObj) (e : GttEntry)
    (index : Nat) (guest : Bool) : Except Int GttEntry :=
  if !mm.hasShadowPageTable then
    .error (-22)
  else
    match tbl.spts (gen8_gtt_get_pfn e) with
    | none => .error (-6)
    | some s =>
        .ok (if !guest then spt_shadow_entry s index else spt_guest_entry s index)

/-- The loop at gtt.c:2063-2073: step through the per-level indices,
failing (`goto err`) when a lookup fails or an entry is not present.
The C loop passes `guest = (i == index - 1)`, i.e. the final level is
read from the guest page; the index list is paired with that flag. -/
def gma_walk (tbl : SptTable) (mm : MMObj) :
    GttEntry → List (Nat × Bool) → Option GttEntry
  | e, [] => some e
  | e, (idx, guest) :: rest =>
      match ppgtt_get_next_level_entry tbl mm e idx guest with
      | .error _ => none
      | .ok e2 =>
          if !gen8_gtt_test_present e2 then none
          else gma_walk tbl mm e2 rest

/-- gtt.c:1999 `intel_vgpu_gma_to_gpa`: translate a graphics memory
address to a guest physical address, returning
`INTEL_GVT_INVALID_ADDR` on any failure.  GGTT mms read the guest GGTT
entry after a range check; PPGTT mms read the shadow root entry, then
walk `page_table_level`-many levels with the final level read from the
guest page. -/
def intel_vgpu_gma_to_gpa (env : GGTTEnv) (tbl : SptTable) (mm : MMObj)
    (gma : Nat) : Nat :=
  if mm.typ ≠ INTEL_GVT_MM_GGTT ∧ mm.typ ≠ INTEL_GVT_MM_PPGTT then
    INTEL_GVT_INVALID_ADDR
  else if mm.typ = INTEL_GVT_MM_GGTT then
    if !vgpu_gmadr_is_valid env gma then
      INTEL_GVT_INVALID_ADDR
    else
      let e := gen8_gtt_test_pse
        { typ := GTT_TYPE_GGTT_PTE
          val64 := mm.virtualPageTable (gma_to_ggtt_pte_index gma) }
      (gen8_gtt_get_pfn e <<< GTT_PAGE_SHIFT) + (gma &&& 0xfff)
  else
    let walked : Option GttEntry :=
      if mm.pageTableLevel = 4 then
        gma_walk tbl mm (ppgtt_get_shadow_root_entry mm 0)
          [(gen8_gma_to_pml4_index gma, false),
           (gen8_gma_to_l4_pdp_index gma, false),
           (gen8_gma_to_pde_index gma, false),
           (gen8_gma_to_pte_index gma, true)]
      else if mm.pageTableLevel = 3 then
        gma_walk tbl mm
          (ppgtt_get_shadow_root_entry mm (gen8_gma_to_l3_pdp_index gma))
          [(gen8_gma_to_pde_index gma, false),
           (gen8_gma_to_pte_index gma, true)]
      else if mm.pageTableLevel = 2 then
        gma_walk tbl mm
          (ppgtt_get_shadow_root_entry mm (gen8_gma_to_pde_index gma))
          [(gen8_gma_to_pte_index gma, true)]
      else
        none
    match walked with
    | none => INTEL_GVT_INVALID_ADDR
    | some e => (gen8_gtt_get_pfn e <<< GTT_PAGE_SHIFT) + (gma &&& 0xfff)

/-!
## LRU reclamation and shadow-page allocation retry (gtt.c:837-880, 1944-1962)
-/

/-- The fields of an mm on the device LRU list that `reclaim_one_mm`
reads: its type, pin count, and (through `invalidate_mm`) its shadowed
flag.  `ident` just names the node. -/
structure MMNode where
  ident : Nat
  typ : Int
  pincount : Nat
  shadowed : Bool
  deriving Repr, DecidableEq

/-- An LRU node `reclaim_one_mm` may reclaim: an unpinned PPGTT mm. -/
def mm_reclaimable (mm : MMNode) : Bool :=
  mm.typ == INTEL_GVT_MM_PPGTT && mm.pincount == 0

/-- gtt.c:1944 `reclaim_one_mm`: walk the LRU list from its
least-recently-used end, skip non-PPGTT and pinned mms, remove the first
eligible mm from the list, invalidate its shadow tree, and report it;
report nothing when no mm is eligible. -/
def reclaim_one_mm : List MMNode → Option (MMNode × List MMNode)
  | [] => none
  | mm :: rest =>
      if !mm_reclaimable mm then
        match reclaim_one_mm rest with
        | none => none
        | some (r, rest2) => some (r, mm :: rest2)
      else
        some ({ mm with shadowed := false }, rest)

theorem reclaim_one_mm_length {lru rest : List MMNode} {r : MMNode}
    (h : reclaim_one_mm lru = some (r, rest)) : rest.length < lru.length := by
  induction lru generalizing rest r with
  | nil => simp [reclaim_one_mm] at h
  | cons mm tail ih =>
      by_cases hr : mm_reclaimable mm
      · simp [reclaim_one_mm, hr] at h
        obtain ⟨-, rfl⟩ := h
        simp only [List.length_cons]
        omega
      · have hr2 : mm_reclaimable mm = false := by simpa using hr
        simp [reclaim_one_mm, hr2] at h
        cases htl : reclaim_one_mm tail with
        | none => simp [htl] at h
        | some p =>
            obtain ⟨r2, rest2⟩ := p
            simp [htl] at h
            obtain ⟨rfl, rfl⟩ := h
            have := ih htl
            simp only [List.length_cons]
            omega

/-- gtt.c:843-851, the `retry:` loop of `ppgtt_alloc_shadow_page`: try
the allocator (`alloc_spt`, modelled by the oracle `alloc` indexed by
attempt number); on failure run `reclaim_one_mm` and, if it reclaimed
something, go back to `retry`; otherwise fail with -ENOMEM.  Returns the
result, the remaining LRU list, and the reclaimed (invalidated) mms in
reclamation order. -/
def ppgtt_alloc_shadow_page_retry (alloc : Nat → Bool) (attempt : Nat)
    (lru : List MMNode) : Except Int Unit × List MMNode × List MMNode :=
  if alloc attempt then
    (.ok (), lru, [])
  else
    match h : reclaim_one_mm lru with
    | none => (.error (-12), lru, [])
    | some (r, lru2) =>
        let rr := ppgtt_alloc_shadow_page_retry alloc (attempt + 1) lru2
        (rr.1, rr.2.1, r :: rr.2.2)
termination_by lru.length
decreasing_by exact reclaim_one_mm_length h

/-!
## OOS page synchronization (gtt.c:1165-1335)
-/

/-- The state, relevant to `sync_oos_page`, of one guest page currently
out of sync together with its OOS buffer and owning shadow page:
`intel_vgpu_oos_page.mem`, the live guest page, the shadow page table,
the post-shadow bitmap/list membership, the write counter and the
write-protection flag. -/
structure OosPageRec where
  typ : Int
  mem : Nat → Nat
  guest : Nat → Nat
  shadow : Nat → Nat
  postBitmap : Nat → Bool
  postListed : Bool
  writeCnt : Nat
  writeprotection : Bool

/-- Per-vGPU OOS state: the tracked pages keyed by OOS page id, the
per-vGPU out-of-sync list (`vgpu->gtt.oos_page_list_head`, as ids), and
`gtt_entry_p2m`'s static cache. -/
structure OosVmState where
  pages : Nat → OosPageRec
  vmList : List Nat
  p2m : P2MCache

structure OosEnv where
  /-- Module parameter `i915_modparams.enable_gvt_oos`. -/
  enableOos : Bool
  /-- Result of `intel_gvt_hypervisor_set_wp_page` per page id. -/
  setWpRes : Nat → Except Int Unit
  /-- `intel_gvt_hypervisor_gfn_to_mfn`. -/
  hyp : Nat → Nat

/-- The body of `sync_oos_page`'s loop (gtt.c:1183-1203) at one entry
index: compare the buffered value with the live guest value (both tagged
`get_entry_type(guest_page_type)`, no PSE resolve — the raw
`ops->get_entry` is used here); skip when they agree and the post-shadow
bit was not set (`test_and_clear_bit` only runs when the values agree,
by `&&` short-circuit); otherwise translate the new value, refresh the
buffer and write the shadow entry. -/
def sync_oos_page_step (env : OosEnv) (r : OosPageRec) (cache : P2MCache)
    (index : Nat) : Except Int (OosPageRec × P2MCache) :=
  let t := get_entry_type r.typ
  let old : GttEntry := { typ := t, val64 := r.mem index }
  let new : GttEntry := { typ := t, val64 := r.guest index }
  if old.val64 = new.val64 ∧ ¬(r.postBitmap index) then
    .ok (r, cache)
  else
    let r0 :=
      if old.val64 = new.val64 then
        { r with postBitmap := fun n => if n = index then false else r.postBitmap n }
      else r
    match gtt_entry_p2m env.hyp cache new with
    | .error c => .error c
    | .ok (m, cache2) =>
        .ok ({ r0 with
                mem := fun n => if n = index then new.val64 else r0.mem n
                shadow := fun n => if n = index then m.val64 else r0.shadow n },
             cache2)

/-- gtt.c:1165 `sync_oos_page`: run the reconciliation step over all 512
entry indices, then reset the write counter and leave the post-shadow
list. -/
def sync_oos_page (env : OosEnv) (r : OosPageRec) (cache : P2MCache) :
    Except Int (OosPageRec × P2MCache) :=
  let folded := (List.range 512).foldl
    (fun (acc : Except Int (OosPageRec × P2MCache)) index =>
      match acc with
      | .error c => .error c
      | .ok (r1, c1) => sync_oos_page_step env r1 c1 index)
    (Except.ok (r, cache))
  match folded with
  | .error c => .error c
  | .ok (r1, c1) =>
      .ok ({ r1 with writeCnt := 0, postListed := false }, c1)

/-- gtt.c:1252 `ppgtt_set_guest_page_sync`: re-arm write protection
(the hypervisor service sets the page's writeprotection flag on
success), remove the OOS page from the per-vGPU out-of-sync list, and
reconcile it. -/
def ppgtt_set_guest_page_sync (env : OosEnv) (s : OosVmState) (id : Nat) :
    Except Int OosVmState :=
  match env.setWpRes id with
  | .error c => .error c
  | .ok _ =>
      let r1 := { s.pages id with writeprotection := true }
      let s1 :=
        { s with
            pages := fun n => if n = id then r1 else s.pages n
            vmList := s.vmList.erase id }
      match sync_oos_page env r1 s1.p2m with
      | .error c => .error c
      | .ok (r2, cache2) =>
          .ok { s1 with
                  pages := fun n => if n = id then r2 else s1.pages n
                  p2m := cache2 }

/-- The `list_for_each_safe` loop of `intel_vgpu_sync_oos_pages`
(gtt.c:1327-1333), iterating over a snapshot of the list links; each
iteration removes its own element from the live list. -/
def sync_oos_pages_loop (env : OosEnv) (s : OosVmState) :
    List Nat → Except Int OosVmState
  | [] => .ok s
  | id :: rest =>
      match ppgtt_set_guest_page_sync env s id with
      | .error c => .error c
      | .ok s1 => sync_oos_pages_loop env s1 rest

/-- gtt.c:1318 `intel_vgpu_sync_oos_pages`: nothing to do when the OOS
feature is disabled; otherwise sync every page on the per-vGPU
out-of-sync list. -/
def intel_vgpu_sync_oos_pages (env : OosEnv) (s : OosVmState) :
    Except Int OosVmState :=
  if !env.enableOos then
    .ok s
  else
    sync_oos_pages_loop env s s.vmList

/-!
## Spec-side restatements (for refinement comparison)

The two definitions below follow the spec's words, to be compared with
`intel_vgpu_gma_to_gpa` (which is translated from the code).
-/

/-- One non-final level of the translation walk as the amended claim
reads it: look up the *shadow* page the current entry points at and
read its *shadow* entry, failing when the page cannot be found or the
entry is not present. -/
def spec_read_shadow_level (tbl : SptTable) (mm : MMObj) (e : GttEntry)
    (index : Nat) : Option GttEntry :=
  if !mm.hasShadowPageTable then none
  else
    match tbl.spts (gen8_gtt_get_pfn e) with
    | none => none
    | some s =>
        if gen8_gtt_test_present (spt_shadow_entry s index) then
          some (spt_shadow_entry s index)
        else none

/-- The final level of the translation walk as the amended claim reads
it: look up the shadow page but read its *guest* entry (the result is a
guest physical address). -/
def spec_read_guest_level (tbl : SptTable) (mm : MMObj) (e : GttEntry)
    (index : Nat) : Option GttEntry :=
  if !mm.hasShadowPageTable then none
  else
    match tbl.spts (gen8_gtt_get_pfn e) with
    | none => none
    | some s =>
        if gen8_gtt_test_present (spt_guest_entry s index) then
          some (spt_guest_entry s index)
        else none

/-- The gma→gpa translation as the amended claim states it: GGTT mms
read the guest GGTT entry after a range check; PPGTT mms walk the
per-level indices top-down reading shadow entries at every level except
the final one, which is read from the guest page; `none` stands for the
invalid-address sentinel. -/
def gma_to_gpa_spec (env : GGTTEnv) (tbl : SptTable) (mm : MMObj)
    (gma : Nat) : Option Nat :=
  if mm.typ = INTEL_GVT_MM_GGTT then
    if vgpu_gmadr_is_valid env gma then
      some ((gen8_gtt_get_pfn (gen8_gtt_test_pse
          { typ := GTT_TYPE_GGTT_PTE
            val64 := mm.virtualPageTable (gma_to_ggtt_pte_index gma) })
          <<< GTT_PAGE_SHIFT) + (gma &&& 0xfff))
    else none
  else if mm.typ = INTEL_GVT_MM_PPGTT then
    if mm.pageTableLevel = 4 then
      (spec_read_shadow_level tbl mm (ppgtt_get_shadow_root_entry mm 0)
          (gen8_gma_to_pml4_index gma)).bind fun e1 =>
      (spec_read_shadow_level tbl mm e1 (gen8_gma_to_l4_pdp_index gma)).bind
          fun e2 =>
      (spec_read_shadow_level tbl mm e2 (gen8_gma_to_pde_index gma)).bind
          fun e3 =>
      (spec_read_guest_level tbl mm e3 (gen8_gma_to_pte_index gma)).map
          fun e4 =>
        (gen8_gtt_get_pfn e4 <<< GTT_PAGE_SHIFT) + (gma &&& 0xfff)
    else if mm.pageTableLevel = 3 then
      (spec_read_shadow_level tbl mm
          (ppgtt_get_shadow_root_entry mm (gen8_gma_to_l3_pdp_index gma))
          (gen8_gma_to_pde_index gma)).bind fun e1 =>
      (spec_read_guest_level tbl mm e1 (gen8_gma_to_pte_index gma)).map
          fun e2 =>
        (gen8_gtt_get_pfn e2 <<< GTT_PAGE_SHIFT) + (gma &&& 0xfff)
    else if mm.pageTableLevel = 2 then
      (spec_read_guest_level tbl mm
          (ppgtt_get_shadow_root_entry mm (gen8_gma_to_pde_index gma))
          (gen8_gma_to_pte_index gma)).map fun e1 =>
        (gen8_gtt_get_pfn e1 <<< GTT_PAGE_SHIFT) + (gma &&& 0xfff)
    else none
  else none

/-- The translation as the claim originally states it: *every* level,
the final one included, is read from the shadow entries. -/
def gma_to_gpa_claim_all_shadow (env : GGTTEnv) (tbl : SptTable)
    (mm : MMObj) (gma : Nat) : Option Nat :=
  if mm.typ = INTEL_GVT_MM_GGTT then
    if vgpu_gmadr_is_valid env gma then
      some ((gen8_gtt_get_pfn (gen8_gtt_test_pse
          { typ := GTT_TYPE_GGTT_PTE
            val64 := mm.virtualPageTable (gma_to_ggtt_pte_index gma) })
          <<< GTT_PAGE_SHIFT) + (gma &&& 0xfff))
    else none
  else if mm.typ = INTEL_GVT_MM_PPGTT then
    if mm.pageTableLevel = 4 then
      (spec_read_shadow_level tbl mm (ppgtt_get_shadow_root_entry mm 0)
          (gen8_gma_to_pml4_index gma)).bind fun e1 =>
      (spec_read_shadow_level tbl mm e1 (gen8_gma_to_l4_pdp_index gma)).bind
          fun e2 =>
      (spec_read_shadow_level tbl mm e2 (gen8_gma_to_pde_index gma)).bind
          fun e3 =>
      (spec_read_shadow_level tbl mm e3 (gen8_gma_to_pte_index gma)).map
          fun e4 =>
        (gen8_gtt_get_pfn e4 <<< GTT_PAGE_SHIFT) + (gma &&& 0xfff)
    else if mm.pageTableLevel = 3 then
      (spec_read_shadow_level tbl mm
          (ppgtt_get_shadow_root_entry mm (gen8_gma_to_l3_pdp_index gma))
          (gen8_gma_to_pde_index gma)).bind fun e1 =>
      (spec_read_shadow_level tbl mm e1 (gen8_gma_to_pte_index gma)).map
          fun e2 =>
        (gen8_gtt_get_pfn e2 <<< GTT_PAGE_SHIFT) + (gma &&& 0xfff)
    else if mm.pageTableLevel = 2 then
      (spec_read_shadow_level tbl mm
          (ppgtt_get_shadow_root_entry mm (gen8_gma_to_pde_index gma))
          (gen8_gma_to_pte_index gma)).map fun e1 =>
        (gen8_gtt_get_pfn e1 <<< GTT_PAGE_SHIFT) + (gma &&& 0xfff)
    else none
  else none

/-!
## Concrete states used by witnesses and counterexamples
-/

/-- Concrete vGPU range/scratch parameters for witnesses: aperture
[0x0, 0xffff], hidden [0x100000, 0x10ffff]. -/
def envW : GGTTEnv :=
  { apertureBase := 0
    apertureSize := 0x10000
    hiddenBase := 0x100000
    hiddenSize := 0x10000
    scratchGgttMfn := 0xab
    gttStartOffset := 0
    hyp := fun _ => INTEL_GVT_INVALID_ADDR }

def stW : GGTTState :=
  { guestTable := fun _ => 0
    shadowTable := fun _ => 0
    p2m := { saved_gfn := 5, saved_mfn := 5 } }

/-- Concrete single-page PPGTT environment for witnesses: a PTE-level
page, distinct per-level scratch frames, a hypervisor that translates
gfn g to mfn g + 0x1000 except that gfn 7 is untranslatable. -/
def penvW : PpgttEnv :=
  { shadowPageType := GTT_TYPE_PPGTT_PTE_PT
    guestPageType := GTT_TYPE_PPGTT_PTE_PT
    scratchMfn := fun t => if t = GTT_TYPE_PPGTT_PTE_PT then 0x51 else 0x52
    hyp := fun g => if g = 7 then INTEL_GVT_INVALID_ADDR else g + 0x1000
    populateMfn := fun _ => .ok 0x77
    findShadow := fun _ => true
    invalidateRes := fun _ => .ok ()
    enableOos := true
    unsetWpRes := .ok () }

def pstW : PpgttState :=
  { shadow := fun _ => 0
    guest := fun _ => 0
    postBitmap := fun _ => false
    postListed := false
    writeCnt := 0
    hasOos := false
    oosMem := fun _ => 0
    oosOnVmList := false
    writeprotection := true
    p2m := { saved_gfn := 5, saved_mfn := 5 }
    trace := [] }

/-- A directory-level (PDE) tracked page: same environment as `penvW`
but for a non-leaf page table. -/
def penvX : PpgttEnv :=
  { shadowPageType := GTT_TYPE_PPGTT_PDE_PT
    guestPageType := GTT_TYPE_PPGTT_PDE_PT
    scratchMfn := fun t => if t = GTT_TYPE_PPGTT_PDE_PT then 0x52 else 0x51
    hyp := fun g => g + 0x1000
    populateMfn := fun _ => .ok 0x77
    findShadow := fun _ => true
    invalidateRes := fun _ => .ok ()
    enableOos := true
    unsetWpRes := .ok () }

def pstX : PpgttState :=
  { shadow := fun _ => 0
    guest := fun _ => 0
    postBitmap := fun _ => false
    postListed := false
    writeCnt := 5
    hasOos := false
    oosMem := fun _ => 0
    oosOnVmList := false
    writeprotection := true
    p2m := P2MCache.init
    trace := [] }

/-- The present 4K guest entry used by the C2 witness. -/
def weW : GttEntry := { typ := GTT_TYPE_PPGTT_PTE_4K_ENTRY, val64 := 0x9001 }

/-- Two unpinned PPGTT mms on the witness LRU list. -/
def lruW : List MMNode :=
  [{ ident := 1, typ := INTEL_GVT_MM_PPGTT, pincount := 0, shadowed := true },
   { ident := 2, typ := INTEL_GVT_MM_PPGTT, pincount := 0, shadowed := true }]

def oosEnvW : OosEnv :=
  { enableOos := true
    setWpRes := fun _ => .ok ()
    hyp := fun g => g + 0x1000 }

def oosStW : OosVmState :=
  { pages := fun _ =>
      { typ := GTT_TYPE_PPGTT_PTE_PT
        mem := fun _ => 0
        guest := fun _ => 0
        shadow := fun _ => 0
        postBitmap := fun _ => false
        postListed := false
        writeCnt := 0
        writeprotection := false }
    vmList := []
    p2m := P2MCache.init }

/-- A 3-level PPGTT mm whose shadow root points at machine frame 100. -/
def mm3 : MMObj :=
  { typ := INTEL_GVT_MM_PPGTT
    pageTableLevel := 3
    pageTableEntryType := GTT_TYPE_PPGTT_ROOT_L3_ENTRY
    hasShadowPageTable := true
    virtualPageTable := fun _ => 0
    shadowPageTable := fun i => if i = 0 then 100 <<< 12 else 0 }

/-- A shadow-page table with a PDE-level page at mfn 100 and a
PTE-level page at mfn 200 whose shadow and guest leaf entries point at
*different* frames (9 and 7). -/
def tbl3 : SptTable :=
  { spts := fun mfn =>
      if mfn = 100 then
        some { typ := GTT_TYPE_PPGTT_PDE_PT
               shadowVals := fun i => if i = 0 then (200 <<< 12) ||| 1 else 0
               guestVals := fun _ => 0 }
      else if mfn = 200 then
        some { typ := GTT_TYPE_PPGTT_PTE_PT
               shadowVals := fun i => if i = 0 then (9 <<< 12) ||| 1 else 0
               guestVals := fun i => if i = 0 then (7 <<< 12) ||| 1 else 0 }
      else none }

/-!
## Theorems
-/

theorem nat_and_mask (x n : Nat) : x &&& (2 ^ n - 1) = x % 2 ^ n :=
  Nat.and_pow_two_sub_one_eq_mod x n

/-- C7 (counterexample): the claim states that the
page-directory-pointer index — its cited source is
`gen8_gma_to_l3_pdp_index` — extracts bits 38:30 of the gma.  The
3-level PDP index function masks with 0x3, i.e. extracts only bits
31:30: at gma = 2^32 it yields 0 while bits 38:30 of that gma are 4. -/
theorem gen8_gma_to_l3_pdp_index_not_bits_38_30 :
    gen8_gma_to_l3_pdp_index 4294967296 = 0 ∧
      bit_field 4294967296 38 30 = 4 ∧
      gen8_gma_to_l3_pdp_index 4294967296 ≠ bit_field 4294967296 38 30 := by
  refine ⟨by decide, by decide, by decide⟩

/-- C7 (amended): the per-level index functions extract exactly these
bit fields of the gma: PML4 bits 47:39, the *4-level* PDP index bits
38:30, the *3-level* PDP index bits 31:30 (two bits, the L3 root has
four entries), PDE bits 29:21, PTE bits 20:12, and the flat GGTT index
is the gma shifted right by 12. -/
theorem gma_index_bit_fields (gma : Nat) :
    gen8_gma_to_pml4_index gma = bit_field gma 47 39 ∧
    gen8_gma_to_l4_pdp_index gma = bit_field gma 38 30 ∧
    gen8_gma_to_l3_pdp_index gma = bit_field gma 31 30 ∧
    gen8_gma_to_pde_index gma = bit_field gma 29 21 ∧
    gen8_gma_to_pte_index gma = bit_field gma 20 12 ∧
    gma_to_ggtt_pte_index gma = gma >>> 12 := by
  refine ⟨?_, ?_, ?_, ?_, ?_, rfl⟩
  · show (gma >>> 39) &&& 0x1ff = (gma >>> 39) % 2 ^ 9
    have := nat_and_mask (gma >>> 39) 9
    norm_num at this ⊢
    exact this
  · show (gma >>> 30) &&& 0x1ff = (gma >>> 30) % 2 ^ 9
    have := nat_and_mask (gma >>> 30) 9
    norm_num at this ⊢
    exact this
  · show (gma >>> 30) &&& 0x3 = (gma >>> 30) % 2 ^ 2
    have := nat_and_mask (gma >>> 30) 2
    norm_num at this ⊢
    exact this
  · show (gma >>> 21) &&& 0x1ff = (gma >>> 21) % 2 ^ 9
    have := nat_and_mask (gma >>> 21) 9
    norm_num at this ⊢
    exact this
  · show (gma >>> 12) &&& 0x1ff = (gma >>> 12) % 2 ^ 9
    have := nat_and_mask (gma >>> 12) 9
    norm_num at this ⊢
    exact this

/-- C8: the present test returns, for the two root-pointer entry types
(L3 and L4 root), whether the raw 64-bit value is non-zero, and for
every other entry type whether bit 0 (the explicit present bit) is
set. -/
theorem gen8_gtt_test_present_iff (t : Int) (v : Nat) :
    gen8_gtt_test_present { typ := t, val64 := v } =
      if t = GTT_TYPE_PPGTT_ROOT_L3_ENTRY ∨ t = GTT_TYPE_PPGTT_ROOT_L4_ENTRY
      then decide (v ≠ 0)
      else decide (v.testBit 0) := by
  by_cases h1 : t = GTT_TYPE_PPGTT_ROOT_L3_ENTRY
  · subst h1
    rcases eq_or_ne v 0 with rfl | hv
    · simp [gen8_gtt_test_present]
    · simp [gen8_gtt_test_present, hv]
  · by_cases h2 : t = GTT_TYPE_PPGTT_ROOT_L4_ENTRY
    · subst h2
      rcases eq_or_ne v 0 with rfl | hv
      · simp [gen8_gtt_test_present, GTT_TYPE_PPGTT_ROOT_L3_ENTRY,
          GTT_TYPE_PPGTT_ROOT_L4_ENTRY]
      · simp [gen8_gtt_test_present, hv, GTT_TYPE_PPGTT_ROOT_L3_ENTRY,
          GTT_TYPE_PPGTT_ROOT_L4_ENTRY]
    · have hb : (1 : Nat) <<< 0 = 1 := rfl
      simp only [gen8_gtt_test_present, h1, h2, or_self, if_false, hb,
        Nat.and_one_is_mod, Nat.testBit_zero, decide_eq_true_eq, if_neg,
        not_false_iff, or_false, false_or]
      rcases Nat.mod_two_eq_zero_or_one v with hv | hv <;> simp [hv]

/-- C9: a GGTT MMIO entry write whose target gma is outside the vGPU's
aperture and hidden ranges is dropped: `emulate_gtt_mmio_write` returns
success with the state — guest GGTT, shadow GGTT and translation cache —
completely unchanged. -/
theorem emulate_gtt_mmio_write_drops_out_of_range (env : GGTTEnv)
    (st : GGTTState) (off data bytes : Nat)
    (hb : bytes = 4 ∨ bytes = 8)
    (hv : vgpu_gmadr_is_valid env ((off >>> 3) <<< GTT_PAGE_SHIFT) = false) :
    emulate_gtt_mmio_write env st off data bytes = .ok st := by
  unfold emulate_gtt_mmio_write
  rcases hb with rfl | rfl <;> simp [hv]

/-- C9 (witness): a 4-byte write targeting GGTT index 0x20000, i.e.
gma 0x20000000, which is in neither range, is dropped. -/
theorem emulate_gtt_mmio_write_drops_out_of_range_witness :
    vgpu_gmadr_is_valid envW ((0x100000 >>> 3) <<< GTT_PAGE_SHIFT) = false ∧
      emulate_gtt_mmio_write envW stW 0x100000 0xdeadbeef 4 = .ok stW :=
  ⟨by decide,
   emulate_gtt_mmio_write_drops_out_of_range envW stW 0x100000 0xdeadbeef 4
     (Or.inl rfl) (by decide)⟩

/-- C10: every GTT MMIO register read, every GTT MMIO register write,
and every trapped write to a write-protected guest page-table page whose
access size is neither 4 nor 8 bytes is rejected with -EINVAL before any
guest or shadow state is read or modified (the size test is the first
statement of each handler; the error return carries no state change). -/
theorem access_size_rejected (env : GGTTEnv) (penv : PpgttEnv)
    (st : GGTTState) (pst : PpgttState) (off pa data bytes : Nat)
    (hb : bytes ≠ 4 ∧ bytes ≠ 8) :
    intel_vgpu_emulate_gtt_mmio_read env st off bytes = .error (-22) ∧
    intel_vgpu_emulate_gtt_mmio_write env st off data bytes = .error (-22) ∧
    ppgtt_write_protection_handler penv pst pa data bytes = .error (-22) := by
  refine ⟨?_, ?_, ?_⟩ <;>
    simp [intel_vgpu_emulate_gtt_mmio_read, intel_vgpu_emulate_gtt_mmio_write,
      ppgtt_write_protection_handler, hb]

/-- C10 (witness): a 2-byte access is rejected by all three entry
points. -/
theorem access_size_rejected_witness :
    ((2 : Nat) ≠ 4 ∧ (2 : Nat) ≠ 8) ∧
    intel_vgpu_emulate_gtt_mmio_read envW stW 0 2 = .error (-22) ∧
    intel_vgpu_emulate_gtt_mmio_write envW stW 0 0xff 2 = .error (-22) ∧
    ppgtt_write_protection_handler penvW pstW 0 0xff 2 = .error (-22) :=
  ⟨⟨by decide, by decide⟩,
   access_size_rejected envW penvW stW pstW 0 0 0xff 2 ⟨by decide, by decide⟩⟩

/-- C3 (amended): whenever `gtt_entry_p2m` actually consults the
hypervisor service — the entry is present and its gfn differs from the
one kept in the function's static one-entry translation cache — and the
service fails, the translation fails with -ENXIO, and the PPGTT shadow
operation handling that leaf entry (`ppgtt_handle_guest_entry_add`)
propagates exactly that error to its caller. -/
theorem gtt_entry_p2m_error_surfaced (penv : PpgttEnv) (pst : PpgttState)
    (we : GttEntry) (index : Nat)
    (hleaf : gtt_type_is_pt (get_next_pt_type we.typ) = false)
    (hp : gen8_gtt_test_present we = true)
    (hg : gen8_gtt_get_pfn we ≠ pst.p2m.saved_gfn)
    (hh : penv.hyp (gen8_gtt_get_pfn we) = INTEL_GVT_INVALID_ADDR) :
    gtt_entry_p2m penv.hyp pst.p2m we = .error (-6) ∧
    ppgtt_handle_guest_entry_add penv pst we index = .error (-6) := by
  have h1 : gtt_entry_p2m penv.hyp pst.p2m we = .error (-6) := by
    unfold gtt_entry_p2m
    simp [hp, hg, hh]
  refine ⟨h1, ?_⟩
  unfold ppgtt_handle_guest_entry_add
  simp [hleaf, h1]

/-- C3 (witness): a present 4K leaf entry for gfn 7, which the witness
hypervisor cannot translate and which misses the cache (it holds gfn 5),
makes the shadow add operation fail with -ENXIO. -/
theorem gtt_entry_p2m_error_surfaced_witness :
    (gtt_type_is_pt
        (get_next_pt_type (GttEntry.mk GTT_TYPE_PPGTT_PTE_4K_ENTRY 0x7001).typ) =
      false) ∧
    gen8_gtt_test_present (GttEntry.mk GTT_TYPE_PPGTT_PTE_4K_ENTRY 0x7001) = true ∧
    gtt_entry_p2m penvW.hyp pstW.p2m
        (GttEntry.mk GTT_TYPE_PPGTT_PTE_4K_ENTRY 0x7001) = .error (-6) ∧
    ppgtt_handle_guest_entry_add penvW pstW
        (GttEntry.mk GTT_TYPE_PPGTT_PTE_4K_ENTRY 0x7001) 3 = .error (-6) := by
  have h := gtt_entry_p2m_error_surfaced penvW pstW
    (GttEntry.mk GTT_TYPE_PPGTT_PTE_4K_ENTRY 0x7001) 3
    (by decide) (by decide) (by decide) (by decide)
  exact ⟨by decide, by decide, h.1, h.2⟩

/-- Helper: `ppgtt_handle_guest_entry_removal` never writes the shadow
table of the page itself, never touches the OOS bookkeeping fields, and
only appends to the trace. -/
theorem ppgtt_handle_guest_entry_removal_state (env : PpgttEnv)
    (st : PpgttState) (se : GttEntry) (s2 : PpgttState)
    (h : ppgtt_handle_guest_entry_removal env st se = .ok s2) :
    s2.shadow = st.shadow ∧ s2.writeprotection = st.writeprotection ∧
    s2.writeCnt = st.writeCnt ∧ s2.hasOos = st.hasOos ∧
    ∃ evs, s2.trace = st.trace ++ evs := by
  unfold ppgtt_handle_guest_entry_removal at h
  split at h
  · obtain rfl := (Except.ok.injEq _ _).mp h
    exact ⟨rfl, rfl, rfl, rfl, [], by simp⟩
  · split at h
    · obtain rfl := (Except.ok.injEq _ _).mp h
      exact ⟨rfl, rfl, rfl, rfl, [], by simp⟩
    · split at h
      · split at h
        · exact absurd h (by simp)
        · split at h
          · obtain rfl := (Except.ok.injEq _ _).mp h
            exact ⟨rfl, rfl, rfl, rfl, [TraceEv.invalidate (gen8_gtt_get_pfn se)], rfl⟩
          · exact absurd h (by simp)
      · obtain rfl := (Except.ok.injEq _ _).mp h
        exact ⟨rfl, rfl, rfl, rfl, [], by simp⟩

/-- Helper: when `ppgtt_handle_guest_entry_add` succeeds, the events it
appends to the trace are a (possibly empty) invalidation-free prefix
followed by the write of the new shadow entry at `index`; it preserves
the write-protection/OOS bookkeeping fields. -/
theorem ppgtt_handle_guest_entry_add_trace (env : PpgttEnv)
    (st : PpgttState) (we : GttEntry) (index : Nat) (s1 : PpgttState)
    (h : ppgtt_handle_guest_entry_add env st we index = .ok s1) :
    s1.writeprotection = st.writeprotection ∧ s1.writeCnt = st.writeCnt ∧
    s1.hasOos = st.hasOos ∧
    ∃ pre v, (∀ m, TraceEv.invalidate m ∉ pre) ∧
      s1.trace = st.trace ++ (pre ++ [TraceEv.writeShadow index v]) := by
  by_cases hpt : gtt_type_is_pt (get_next_pt_type we.typ) = true
  · simp only [ppgtt_handle_guest_entry_add, hpt, if_true] at h
    cases hf : env.populateMfn we with
    | error c => simp only [hf] at h; exact absurd h (by simp)
    | ok smfn =>
        simp only [hf] at h
        obtain rfl := ((Except.ok.injEq _ _).mp h).symm
        refine ⟨rfl, rfl, rfl, [TraceEv.populate (gen8_gtt_get_pfn we)],
          (ppgtt_generate_shadow_entry we smfn).val64, by simp, ?_⟩
        simp [ppgtt_write_shadow_entry]
  · have hpt2 : gtt_type_is_pt (get_next_pt_type we.typ) = false := by
      simpa using hpt
    simp only [ppgtt_handle_guest_entry_add, hpt2, Bool.false_eq_true,
      if_false] at h
    cases hf : gtt_entry_p2m env.hyp st.p2m we with
    | error c => simp only [hf] at h; exact absurd h (by simp)
    | ok pr =>
        obtain ⟨m, cache⟩ := pr
        simp only [hf] at h
        obtain rfl := ((Except.ok.injEq _ _).mp h).symm
        refine ⟨rfl, rfl, rfl, [], m.val64, by simp, ?_⟩
        simp [ppgtt_write_shadow_entry]

/-- C2: for a trapped full-entry guest write handled by
`ppgtt_handle_guest_write_page_table`: when the new guest entry is
present, the events the handler performs are an invalidation-free prefix
followed by the write of the new shadow entry at the slot, followed by
the removal of the old mapping — so the new shadow entry is written
before the stale one is removed; when the new guest entry is absent, the
slot is finally written with the old shadow entry redirected to the
level-appropriate scratch frame (a non-zero value whenever the scratch
frame is non-zero and in range for a 4 KB-granular entry). -/
theorem guest_write_adds_before_removing (env : PpgttEnv) (st : PpgttState)
    (we : GttEntry) (index : Nat)
    (hok : (ppgtt_handle_guest_write_page_table env st we index).toOption.isSome
      = true) :
    (gen8_gtt_test_present we = true →
      ∃ pre v post,
        (ppgtt_handle_guest_write_page_table env st we index).toOption.map
            (fun s => s.trace) =
          some (st.trace ++ pre ++ TraceEv.writeShadow index v :: post) ∧
          ∀ m, TraceEv.invalidate m ∉ pre) ∧
    (gen8_gtt_test_present we = false →
      (ppgtt_handle_guest_write_page_table env st we index).toOption.map
          (fun s => s.shadow index) =
        some ((gen8_gtt_set_pfn (ppgtt_shadow_entry env st index)
          (env.scratchMfn env.shadowPageType)).val64) ∧
      ((ppgtt_shadow_entry env st index).typ ≠ GTT_TYPE_PPGTT_PTE_1G_ENTRY →
        (ppgtt_shadow_entry env st index).typ ≠ GTT_TYPE_PPGTT_PTE_2M_ENTRY →
        env.scratchMfn env.shadowPageType ≠ 0 →
        env.scratchMfn env.shadowPageType < 2 ^ 34 →
        (ppgtt_handle_guest_write_page_table env st we index).toOption.map
            (fun s => decide (s.shadow index ≠ 0)) = some true)) := by
  cases hr : ppgtt_handle_guest_write_page_table env st we index with
  | error c => rw [hr] at hok; simp [Except.toOption] at hok
  | ok s2 =>
      clear hok
      by_cases hp : gen8_gtt_test_present we = true
      · -- present: add must have succeeded first, then removal
        simp only [ppgtt_handle_guest_write_page_table, hp, if_true,
          Bool.not_true, Bool.false_eq_true, if_false] at hr
        refine ⟨fun _ => ?_, fun hcontra => by rw [hcontra] at hp; cases hp⟩
        cases ha : ppgtt_handle_guest_entry_add env st we index with
        | error c => simp only [ha] at hr; exact absurd hr (by simp)
        | ok s1 =>
            simp only [ha] at hr
            cases hm : ppgtt_handle_guest_entry_removal env s1
                (ppgtt_shadow_entry env st index) with
            | error c => simp only [hm] at hr; exact absurd hr (by simp)
            | ok s3 =>
                simp only [hm] at hr
                obtain rfl := (Except.ok.injEq _ _).mp hr
                obtain ⟨-, -, -, pre, v, hpre, htr⟩ :=
                  ppgtt_handle_guest_entry_add_trace env st we index s1 ha
                obtain ⟨-, -, -, -, evs, htr2⟩ :=
                  ppgtt_handle_guest_entry_removal_state env s1
                    (ppgtt_shadow_entry env st index) s3 hm
                refine ⟨pre, v, evs, ?_, hpre⟩
                simp only [Except.toOption, Option.map, Option.some.injEq]
                rw [htr2, htr]
                simp
      · -- absent: no add, removal, then the scratch write
        have hp2 : gen8_gtt_test_present we = false := by simpa using hp
        simp only [ppgtt_handle_guest_write_page_table, hp2,
          Bool.false_eq_true, if_false, Bool.not_false, if_true] at hr
        refine ⟨(fun hcontra => by rw [hcontra] at hp2; cases hp2), fun _ => ?_⟩
        cases hm : ppgtt_handle_guest_entry_removal env st
            (ppgtt_shadow_entry env st index) with
        | error c => simp only [hm] at hr; exact absurd hr (by simp)
        | ok s3 =>
            simp only [hm] at hr
            obtain rfl := (Except.ok.injEq _ _).mp hr
            constructor
            · simp [ppgtt_write_shadow_entry, Except.toOption]
            · intro h1g h2m hnz hlt
              simp only [Except.toOption, Option.map, ppgtt_write_shadow_entry,
                if_pos rfl, Option.some.injEq, decide_eq_true_eq]
              show ¬(gen8_gtt_set_pfn (ppgtt_shadow_entry env st index)
                  (env.scratchMfn env.shadowPageType)).val64 = 0
              unfold gen8_gtt_set_pfn
              rw [if_neg h1g, if_neg h2m]
              intro hzero
              have hmask : env.scratchMfn env.shadowPageType &&& (ADDR_4K_MASK >>> 12)
                  = env.scratchMfn env.shadowPageType := by
                have he : ADDR_4K_MASK >>> 12 = 2 ^ 34 - 1 := by decide
                rw [he, nat_and_mask, Nat.mod_eq_of_lt hlt]
              simp only [GttEntry.val64] at hzero
              rw [hmask] at hzero
              have hle : env.scratchMfn env.shadowPageType <<< 12 ≤
                  ((ppgtt_shadow_entry env st index).val64 &&&
                      (ADDR_4K_MASK ^^^ (2 ^ 64 - 1)))
                    ||| (env.scratchMfn env.shadowPageType <<< 12) := by
                apply Nat.le_of_testBit
                intro i hi
                rw [Nat.testBit_or]
                simp [hi]
              rw [hzero] at hle
              have hz2 : env.scratchMfn env.shadowPageType <<< 12 = 0 :=
                Nat.eq_zero_of_le_zero hle
              rw [Nat.shiftLeft_eq, Nat.mul_eq_zero] at hz2
              rcases hz2 with h0 | h0
              · exact hnz h0
              · exact absurd h0 (by positivity)

/-- Helper: the per-entry write state machine leaves the
write-protection flag, the write counter and the OOS association
untouched. -/
theorem ppgtt_handle_guest_write_page_table_fields (env : PpgttEnv)
    (st : PpgttState) (we : GttEntry) (index : Nat) (s2 : PpgttState)
    (h : ppgtt_handle_guest_write_page_table env st we index = .ok s2) :
    s2.writeprotection = st.writeprotection ∧ s2.writeCnt = st.writeCnt ∧
    s2.hasOos = st.hasOos := by
  by_cases hp : gen8_gtt_test_present we = true
  · simp only [ppgtt_handle_guest_write_page_table, hp, if_true,
      Bool.not_true, Bool.false_eq_true, if_false] at h
    cases ha : ppgtt_handle_guest_entry_add env st we index with
    | error c => simp only [ha] at h; exact absurd h (by simp)
    | ok s1 =>
        simp only [ha] at h
        cases hm : ppgtt_handle_guest_entry_removal env s1
            (ppgtt_shadow_entry env st index) with
        | error c => simp only [hm] at h; exact absurd h (by simp)
        | ok s3 =>
            simp only [hm] at h
            obtain rfl := (Except.ok.injEq _ _).mp h
            obtain ⟨ha1, ha2, ha3, -⟩ :=
              ppgtt_handle_guest_entry_add_trace env st we index s1 ha
            obtain ⟨-, hm1, hm2, hm3, -⟩ :=
              ppgtt_handle_guest_entry_removal_state env s1
                (ppgtt_shadow_entry env st index) s3 hm
            exact ⟨hm1.trans ha1, hm2.trans ha2, hm3.trans ha3⟩
  · have hp2 : gen8_gtt_test_present we = false := by simpa using hp
    simp only [ppgtt_handle_guest_write_page_table, hp2,
      Bool.false_eq_true, if_false, Bool.not_false, if_true] at h
    cases hm : ppgtt_handle_guest_entry_removal env st
        (ppgtt_shadow_entry env st index) with
    | error c => simp only [hm] at h; exact absurd h (by simp)
    | ok s3 =>
        simp only [hm] at h
        obtain rfl := (Except.ok.injEq _ _).mp h
        obtain ⟨-, hm1, hm2, hm3, -⟩ :=
          ppgtt_handle_guest_entry_removal_state env st
            (ppgtt_shadow_entry env st index) s3 hm
        exact ⟨hm1, hm2, hm3⟩

/-- Helper: the partial-write path likewise leaves write-protection, the
write counter and the OOS association untouched. -/
theorem ppgtt_write_partial_entry_fields (env : PpgttEnv)
    (st0 : PpgttState) (index : Nat) (s2 : PpgttState)
    (h : ppgtt_write_partial_entry env st0 index = .ok s2) :
    s2.writeprotection = st0.writeprotection ∧ s2.writeCnt = st0.writeCnt ∧
    s2.hasOos = st0.hasOos := by
  by_cases hb : st0.postBitmap index = true
  · simp only [ppgtt_write_partial_entry, hb, Bool.not_true,
      Bool.false_eq_true, if_false] at h
    obtain rfl := (Except.ok.injEq _ _).mp h
    exact ⟨rfl, rfl, rfl⟩
  · have hb2 : st0.postBitmap index = false := by simpa using hb
    simp only [ppgtt_write_partial_entry, hb2, Bool.not_false, if_true] at h
    cases hm : ppgtt_handle_guest_entry_removal env st0
        (ppgtt_shadow_entry env st0 index) with
    | error c => simp only [hm] at h; exact absurd h (by simp)
    | ok s1 =>
        simp only [hm] at h
        obtain rfl := (Except.ok.injEq _ _).mp h
        obtain ⟨-, hm1, hm2, hm3, -⟩ :=
          ppgtt_handle_guest_entry_removal_state env st0
            (ppgtt_shadow_entry env st0 index) s1 hm
        exact ⟨hm1, hm2, hm3⟩

theorem can_do_out_of_sync_iff (env : PpgttEnv) (c : Nat) :
    can_do_out_of_sync env c = true ↔
      (env.enableOos = true ∧ gtt_type_is_pte_pt env.guestPageType = true ∧
        2 ≤ c) := by
  simp [can_do_out_of_sync, Bool.and_eq_true, and_assoc]

/-- Helper: when the OOS bookkeeping tail returns successfully for a
still-write-protected page, the page comes out of write protection
exactly when `can_do_out_of_sync` held for the bumped write counter. -/
theorem ppgtt_write_oos_tail_wp (env : PpgttEnv) (st1 : PpgttState)
    (we : GttEntry) (index : Nat) (s2 : PpgttState)
    (hwp : st1.writeprotection = true)
    (h : ppgtt_write_oos_tail env st1 we index = .ok s2) :
    (s2.writeprotection = false ↔
      (env.enableOos = true ∧ gtt_type_is_pte_pt env.guestPageType = true ∧
        2 ≤ st1.writeCnt + 1)) := by
  by_cases he : env.enableOos = true
  · simp only [ppgtt_write_oos_tail, he, Bool.not_true, Bool.false_eq_true,
      if_false] at h
    by_cases ho : st1.hasOos = true
    · simp only [ho, if_true] at h
      by_cases hc : can_do_out_of_sync env (st1.writeCnt + 1) = true
      · simp only [hc, if_true, ho, Bool.not_true, Bool.false_eq_true,
          if_false, ppgtt_set_guest_page_oos] at h
        cases hu : env.unsetWpRes with
        | error c => simp only [hu] at h; exact absurd h (by simp)
        | ok u =>
            simp only [hu] at h
            obtain rfl := (Except.ok.injEq _ _).mp h
            simpa using (can_do_out_of_sync_iff env (st1.writeCnt + 1)).mp hc
      · have hc2 : can_do_out_of_sync env (st1.writeCnt + 1) = false := by
          simpa using hc
        simp only [hc2, Bool.false_eq_true, if_false] at h
        obtain rfl := (Except.ok.injEq _ _).mp h
        simp only [hwp]
        constructor
        · intro hfalse; cases hfalse
        · intro hcond
          exact absurd ((can_do_out_of_sync_iff env (st1.writeCnt + 1)).mpr hcond)
            (by simp [hc2])
    · have ho2 : st1.hasOos = false := by simpa using ho
      simp only [ho2, Bool.false_eq_true, if_false] at h
      by_cases hc : can_do_out_of_sync env (st1.writeCnt + 1) = true
      · simp only [hc, if_true, ho2, Bool.not_false, if_true,
          ppgtt_allocate_oos_page, attach_oos_page,
          ppgtt_set_guest_page_oos] at h
        cases hu : env.unsetWpRes with
        | error c => simp only [hu] at h; exact absurd h (by simp)
        | ok u =>
            simp only [hu] at h
            obtain rfl := (Except.ok.injEq _ _).mp h
            simpa using (can_do_out_of_sync_iff env (st1.writeCnt + 1)).mp hc
      · have hc2 : can_do_out_of_sync env (st1.writeCnt + 1) = false := by
          simpa using hc
        simp only [hc2, Bool.false_eq_true, if_false] at h
        obtain rfl := (Except.ok.injEq _ _).mp h
        simp only [hwp]
        constructor
        · intro hfalse; cases hfalse
        · intro hcond
          exact absurd ((can_do_out_of_sync_iff env (st1.writeCnt + 1)).mpr hcond)
            (by simp [hc2])
  · have he2 : env.enableOos = false := by simpa using he
    simp only [ppgtt_write_oos_tail, he2, Bool.not_false, if_true] at h
    obtain rfl := (Except.ok.injEq _ _).mp h
    simp [hwp, he2]

/-- C4 (amended): a tracked, still-write-protected guest page-table page
transitions to out-of-sync (its write protection is lifted) on a
trapped guest write exactly when the OOS feature is enabled, the page is
a *last-level (PTE) page table*, and its write counter (including this
write) has reached at least 2. -/
theorem oos_transition_iff (env : PpgttEnv) (st : PpgttState)
    (pa data bytes : Nat)
    (hwp : st.writeprotection = true)
    (hok : (ppgtt_handle_guest_write_page_table_bytes env st pa data
        bytes).toOption.isSome = true) :
    ((ppgtt_handle_guest_write_page_table_bytes env st pa data
          bytes).toOption.map (fun s => s.writeprotection) = some false) ↔
      (env.enableOos = true ∧ gtt_type_is_pte_pt env.guestPageType = true ∧
        2 ≤ st.writeCnt + 1) := by
  cases hr : ppgtt_handle_guest_write_page_table_bytes env st pa data bytes with
  | error c => rw [hr] at hok; simp [Except.toOption] at hok
  | ok s2 =>
      simp only [Except.toOption, Option.map, Option.some.injEq]
      simp only [ppgtt_handle_guest_write_page_table_bytes] at hr
      by_cases hb : bytes = 8
      · simp only [hb, if_true] at hr
        split at hr
        · exact absurd hr (by simp)
        · rename_i st1 heq
          obtain ⟨hf1, hf2, -⟩ :=
            ppgtt_handle_guest_write_page_table_fields _ _ _ _ _ heq
          have hwp1 : st1.writeprotection = true := by rw [hf1]; exact hwp
          have := ppgtt_write_oos_tail_wp _ _ _ _ _ hwp1 hr
          rw [hf2] at this
          exact this
      · simp only [hb, if_false] at hr
        split at hr
        · exact absurd hr (by simp)
        · rename_i st1 heq
          obtain ⟨hf1, hf2, -⟩ :=
            ppgtt_write_partial_entry_fields _ _ _ _ heq
          have hwp1 : st1.writeprotection = true := by rw [hf1]; exact hwp
          have := ppgtt_write_oos_tail_wp _ _ _ _ _ hwp1 hr
          rw [hf2] at this
          exact this

/-- C4 (counterexample): the claim as stated omits the page-type
condition of `can_do_out_of_sync` (gtt.c:1387).  A write-protected
*directory-level* (PDE) page table page whose write counter has reached
6 ≥ 2, with the OOS feature enabled, does *not* transition to
out-of-sync: its write protection stays in place. -/
theorem oos_transition_not_count_only :
    penvX.enableOos = true ∧
    (ppgtt_handle_guest_write_page_table_bytes penvX pstX 0 0 8).toOption.map
        (fun s => s.writeCnt) = some 6 ∧
    (ppgtt_handle_guest_write_page_table_bytes penvX pstX 0 0 8).toOption.map
        (fun s => s.writeprotection) = some true := by
  refine ⟨rfl, by decide, by decide⟩

/-- C4 (witness): for a leaf-level page with write counter 0, the first
trapped write does not lift write protection (count 1 < 2), matching
the amended condition. -/
theorem oos_transition_iff_witness :
    pstW.writeprotection = true ∧
    (ppgtt_handle_guest_write_page_table_bytes penvW pstW 0 0 8).toOption.isSome
      = true ∧
    ((ppgtt_handle_guest_write_page_table_bytes penvW pstW 0 0 8).toOption.map
          (fun s => s.writeprotection) = some false ↔
      (penvW.enableOos = true ∧ gtt_type_is_pte_pt penvW.guestPageType = true ∧
        2 ≤ pstW.writeCnt + 1)) :=
  ⟨rfl, by decide, oos_transition_iff penvW pstW 0 0 8 rfl (by decide)⟩

/-- C2 (witness): a present leaf write at slot 4 succeeds, and its event
trace places the shadow-entry write before any removal; the instantiated
theorem also covers the absent-case conjunct vacuously. -/
theorem guest_write_adds_before_removing_witness :
    (ppgtt_handle_guest_write_page_table penvW pstW weW 4).toOption.isSome
      = true ∧
    ((gen8_gtt_test_present weW = true →
      ∃ pre v post,
        (ppgtt_handle_guest_write_page_table penvW pstW weW 4).toOption.map
            (fun s => s.trace) =
          some (pstW.trace ++ pre ++ TraceEv.writeShadow 4 v :: post) ∧
          ∀ m, TraceEv.invalidate m ∉ pre) ∧
    (gen8_gtt_test_present weW = false →
      (ppgtt_handle_guest_write_page_table penvW pstW weW 4).toOption.map
          (fun s => s.shadow 4) =
        some ((gen8_gtt_set_pfn (ppgtt_shadow_entry penvW pstW 4)
          (penvW.scratchMfn penvW.shadowPageType)).val64) ∧
      ((ppgtt_shadow_entry penvW pstW 4).typ ≠ GTT_TYPE_PPGTT_PTE_1G_ENTRY →
        (ppgtt_shadow_entry penvW pstW 4).typ ≠ GTT_TYPE_PPGTT_PTE_2M_ENTRY →
        penvW.scratchMfn penvW.shadowPageType ≠ 0 →
        penvW.scratchMfn penvW.shadowPageType < 2 ^ 34 →
        (ppgtt_handle_guest_write_page_table penvW pstW weW 4).toOption.map
            (fun s => decide (s.shadow 4 ≠ 0)) = some true))) :=
  ⟨by decide, guest_write_adds_before_removing penvW pstW weW 4 (by decide)⟩

theorem reclaim_one_mm_none_iff (lru : List MMNode) :
    reclaim_one_mm lru = none ↔ ∀ mm ∈ lru, mm_reclaimable mm = false := by
  induction lru with
  | nil => simp [reclaim_one_mm]
  | cons mm tail ih =>
      by_cases hr : mm_reclaimable mm = true
      · simp [reclaim_one_mm, hr]
      · have hr2 : mm_reclaimable mm = false := by simpa using hr
        cases htl : reclaim_one_mm tail with
        | none =>
            simp only [reclaim_one_mm, hr2, Bool.not_false, if_true, htl]
            constructor
            · intro _ x hx
              rcases List.mem_cons.mp hx with rfl | hx2
              · exact hr2
              · exact ih.mp htl x hx2
            · intro _; trivial
        | some p =>
            obtain ⟨r, rest⟩ := p
            simp only [reclaim_one_mm, hr2, Bool.not_false, if_true, htl]
            constructor
            · intro hcontra; cases hcontra
            · intro hall
              have : reclaim_one_mm tail = none :=
                ih.mpr fun x hx => hall x (List.mem_cons_of_mem mm hx)
              rw [this] at htl
              cases htl

/-- Helper: a successful `reclaim_one_mm` reclaims exactly the first
unpinned PPGTT mm of the LRU list: the earlier nodes are untouched and
not reclaimable, the victim is removed from the list and invalidated
(unshadowed), and nothing else changes. -/
theorem reclaim_one_mm_some_spec (lru : List MMNode) (r : MMNode)
    (rest : List MMNode) (h : reclaim_one_mm lru = some (r, rest)) :
    ∃ pre mm post, lru = pre ++ mm :: post ∧
      (∀ x ∈ pre, mm_reclaimable x = false) ∧ mm_reclaimable mm = true ∧
      r = { mm with shadowed := false } ∧ rest = pre ++ post := by
  induction lru generalizing r rest with
  | nil => simp [reclaim_one_mm] at h
  | cons mm tail ih =>
      by_cases hr : mm_reclaimable mm = true
      · simp [reclaim_one_mm, hr] at h
        obtain ⟨rfl, rfl⟩ := h
        exact ⟨[], mm, tail, by simp, by simp, hr, rfl, by simp⟩
      · have hr2 : mm_reclaimable mm = false := by simpa using hr
        simp only [reclaim_one_mm, hr2, Bool.not_false, if_true] at h
        cases htl : reclaim_one_mm tail with
        | none => rw [htl] at h; cases h
        | some p =>
            obtain ⟨r2, rest2⟩ := p
            rw [htl] at h
            simp only [Option.some.injEq, Prod.mk.injEq] at h
            obtain ⟨rfl, rfl⟩ := h
            obtain ⟨pre, mm2, post, hsplit, hpre, hmm2, hreq, hrest⟩ :=
              ih r2 rest2 htl
            refine ⟨mm :: pre, mm2, post, ?_, ?_, hmm2, hreq, ?_⟩
            · rw [hsplit]; rfl
            · intro x hx
              rcases List.mem_cons.mp hx with rfl | hx2
              · exact hr2
              · exact hpre x hx2
            · rw [hrest]; rfl

theorem filter_length_after_reclaim (lru : List MMNode) (r : MMNode)
    (rest : List MMNode) (h : reclaim_one_mm lru = some (r, rest)) :
    (lru.filter mm_reclaimable).length = (rest.filter mm_reclaimable).length + 1 := by
  obtain ⟨pre, mm, post, rfl, hpre, hmm, -, rfl⟩ :=
    reclaim_one_mm_some_spec lru r rest h
  have hfp : pre.filter mm_reclaimable = [] := by
    rw [List.filter_eq_nil_iff]
    intro x hx
    simp [hpre x hx]
  simp [List.filter_append, hfp, hmm]

/-- Helper: one unfolding step of the `retry:` loop when the allocation
attempt succeeds. -/
theorem alloc_retry_step_ok (alloc : Nat → Bool) (a : Nat) (lru : List MMNode)
    (ha : alloc a = true) :
    ppgtt_alloc_shadow_page_retry alloc a lru = (.ok (), lru, []) := by
  rw [ppgtt_alloc_shadow_page_retry.eq_def, ha]
  simp

/-- Helper: one unfolding step of the `retry:` loop when the allocation
attempt fails and no mm can be reclaimed. -/
theorem alloc_retry_step_none (alloc : Nat → Bool) (a : Nat)
    (lru : List MMNode) (ha : alloc a = false)
    (h : reclaim_one_mm lru = none) :
    ppgtt_alloc_shadow_page_retry alloc a lru = (.error (-12), lru, []) := by
  rw [ppgtt_alloc_shadow_page_retry.eq_def, ha]
  simp only [Bool.false_eq_true, if_false]
  split
  · rfl
  · rename_i r2 l2 heq
    rw [h] at heq
    cases heq

/-- Helper: one unfolding step of the `retry:` loop when the allocation
attempt fails and `reclaim_one_mm` reclaims an mm: the loop retries with
the next attempt on the shortened LRU list. -/
theorem alloc_retry_step_some (alloc : Nat → Bool) (a : Nat)
    (lru : List MMNode) (r : MMNode) (lru2 : List MMNode)
    (ha : alloc a = false) (h : reclaim_one_mm lru = some (r, lru2)) :
    ppgtt_alloc_shadow_page_retry alloc a lru =
      ((ppgtt_alloc_shadow_page_retry alloc (a + 1) lru2).1,
       (ppgtt_alloc_shadow_page_retry alloc (a + 1) lru2).2.1,
       r :: (ppgtt_alloc_shadow_page_retry alloc (a + 1) lru2).2.2) := by
  rw [ppgtt_alloc_shadow_page_retry.eq_def, ha]
  simp only [Bool.false_eq_true, if_false]
  split
  · rename_i heq
    rw [h] at heq
    cases heq
  · rename_i r2 l2 heq
    rw [h] at heq
    simp only [Option.some.injEq, Prod.mk.injEq] at heq
    obtain ⟨rfl, rfl⟩ := heq
    rfl

/-- Helper: the `retry:` loop fails with -ENOMEM exactly when the
allocator fails on the initial attempt and on every one of the retries
that successful reclamations grant — one retry per reclaimable (unpinned
PPGTT) mm on the LRU list. -/
theorem alloc_retry_error_iff (alloc : Nat → Bool) (attempt : Nat)
    (lru : List MMNode) :
    (ppgtt_alloc_shadow_page_retry alloc attempt lru).1 = .error (-12) ↔
      ∀ k ≤ (lru.filter mm_reclaimable).length, alloc (attempt + k) = false := by
  suffices hgen : ∀ (n : Nat) (lru : List MMNode) (attempt : Nat),
      (lru.filter mm_reclaimable).length = n →
      ((ppgtt_alloc_shadow_page_retry alloc attempt lru).1 = .error (-12) ↔
        ∀ k ≤ (lru.filter mm_reclaimable).length, alloc (attempt + k) = false) by
    exact hgen _ lru attempt rfl
  intro n
  induction n with
  | zero =>
      intro lru attempt hn
      have hnone : reclaim_one_mm lru = none := by
        rw [reclaim_one_mm_none_iff]
        intro mm hmm
        by_contra hx
        have hx2 : mm_reclaimable mm = true := by simpa using hx
        have : mm ∈ lru.filter mm_reclaimable := List.mem_filter.mpr ⟨hmm, hx2⟩
        rw [List.length_eq_zero.mp hn] at this
        cases this
      rw [hn]
      by_cases ha : alloc attempt = true
      · rw [alloc_retry_step_ok alloc attempt lru ha]
        constructor
        · intro hcontra; cases hcontra
        · intro hall
          have h0 := hall 0 (by omega)
          rw [Nat.add_zero, ha] at h0
          cases h0
      · have ha2 : alloc attempt = false := by simpa using ha
        rw [alloc_retry_step_none alloc attempt lru ha2 hnone]
        constructor
        · intro _ k hk
          have : k = 0 := by omega
          subst this
          rwa [Nat.add_zero]
        · intro _; rfl
  | succ n ih =>
      intro lru attempt hn
      cases hrec : reclaim_one_mm lru with
      | none =>
          exfalso
          have hall := (reclaim_one_mm_none_iff lru).mp hrec
          have : lru.filter mm_reclaimable = [] := by
            rw [List.filter_eq_nil_iff]
            intro x hx
            simp [hall x hx]
          rw [this] at hn
          cases hn
      | some p =>
          obtain ⟨r, lru2⟩ := p
          have hlen2 : (lru2.filter mm_reclaimable).length = n := by
            have := filter_length_after_reclaim lru r lru2 hrec
            omega
          rw [hn]
          by_cases ha : alloc attempt = true
          · rw [alloc_retry_step_ok alloc attempt lru ha]
            constructor
            · intro hcontra; cases hcontra
            · intro hall
              have h0 := hall 0 (by omega)
              rw [Nat.add_zero, ha] at h0
              cases h0
          · have ha2 : alloc attempt = false := by simpa using ha
            rw [alloc_retry_step_some alloc attempt lru r lru2 ha2 hrec]
            have hIH := ih lru2 (attempt + 1) hlen2
            rw [hlen2] at hIH
            show (ppgtt_alloc_shadow_page_retry alloc (attempt + 1) lru2).1
                = Except.error (-12) ↔ _
            constructor
            · intro herr k hk
              cases k with
              | zero => rwa [Nat.add_zero]
              | succ j =>
                  have hj := (hIH.mp herr) j (by omega)
                  rwa [show attempt + 1 + j = attempt + (j + 1) from by omega] at hj
            · intro hall
              apply hIH.mpr
              intro k hk
              have := hall (k + 1) (by omega)
              rwa [show attempt + (k + 1) = attempt + 1 + k from by omega] at this

/-- C5 (amended): `reclaim_one_mm` reclaims at most one mm — the
least-recently-used unpinned PPGTT mm, which it invalidates and removes
from the LRU list — and reports whether it found one; the allocation
loop of `ppgtt_alloc_shadow_page` retries after *every* successful
reclamation (not just once), and propagates -ENOMEM exactly when the
allocator fails on the first attempt and on every retry granted by a
successful reclamation. -/
theorem alloc_retry_reclaim_spec :
    (∀ lru : List MMNode,
      reclaim_one_mm lru = none ↔ ∀ mm ∈ lru, mm_reclaimable mm = false) ∧
    (∀ (lru : List MMNode) (r : MMNode) (rest : List MMNode),
      reclaim_one_mm lru = some (r, rest) →
        ∃ pre mm post, lru = pre ++ mm :: post ∧
          (∀ x ∈ pre, mm_reclaimable x = false) ∧ mm_reclaimable mm = true ∧
          r = { mm with shadowed := false } ∧ rest = pre ++ post) ∧
    (∀ (alloc : Nat → Bool) (attempt : Nat) (lru : List MMNode),
      (ppgtt_alloc_shadow_page_retry alloc attempt lru).1 = .error (-12) ↔
        ∀ k ≤ (lru.filter mm_reclaimable).length, alloc (attempt + k) = false) :=
  ⟨reclaim_one_mm_none_iff, reclaim_one_mm_some_spec, alloc_retry_error_iff⟩

/-- C5 (witness): with an always-failing allocator the loop propagates
-ENOMEM on the two-element witness LRU list, and the reclaim of that
list takes its first node. -/
theorem alloc_retry_reclaim_spec_witness :
    ((ppgtt_alloc_shadow_page_retry (fun _ => false) 0 lruW).1 = .error (-12)) ∧
    (∃ pre mm post, lruW = pre ++ mm :: post ∧
      (∀ x ∈ pre, mm_reclaimable x = false) ∧ mm_reclaimable mm = true ∧
      ({ ident := 1, typ := INTEL_GVT_MM_PPGTT, pincount := 0,
         shadowed := false } : MMNode) = { mm with shadowed := false } ∧
      [({ ident := 2, typ := INTEL_GVT_MM_PPGTT, pincount := 0,
          shadowed := true } : MMNode)] = pre ++ post) :=
  ⟨(alloc_retry_reclaim_spec.2.2 (fun _ => false) 0 lruW).mpr (fun k _ => rfl),
   alloc_retry_reclaim_spec.2.1 lruW
     { ident := 1, typ := INTEL_GVT_MM_PPGTT, pincount := 0, shadowed := false }
     [{ ident := 2, typ := INTEL_GVT_MM_PPGTT, pincount := 0, shadowed := true }]
     (by decide)⟩

/-- C5 (counterexample): the claim as stated says the allocation is
retried *once* and the failure propagated if the retry fails.  With an
allocator that fails on attempts 0 and 1 and succeeds on attempt 2, and
two reclaimable mms on the LRU, the loop reclaims twice and succeeds —
it neither stops after one reclamation round nor propagates the failure
the claim mandates after the single failed retry. -/
theorem alloc_retry_not_single_retry :
    ((fun n => decide (n ≥ 2)) 0 = false) ∧
    ((fun n => decide (n ≥ 2)) 1 = false) ∧
    (ppgtt_alloc_shadow_page_retry (fun n => decide (n ≥ 2)) 0 lruW).1 = .ok () ∧
    (ppgtt_alloc_shadow_page_retry (fun n => decide (n ≥ 2)) 0 lruW).2.2.length = 2 := by
  have e0 := alloc_retry_step_some (fun n => decide (n ≥ 2)) 0 lruW
    { ident := 1, typ := INTEL_GVT_MM_PPGTT, pincount := 0, shadowed := false }
    [{ ident := 2, typ := INTEL_GVT_MM_PPGTT, pincount := 0, shadowed := true }]
    (by decide) (by decide)
  have e1 := alloc_retry_step_some (fun n => decide (n ≥ 2)) 1
    [{ ident := 2, typ := INTEL_GVT_MM_PPGTT, pincount := 0, shadowed := true }]
    { ident := 2, typ := INTEL_GVT_MM_PPGTT, pincount := 0, shadowed := false }
    [] (by decide) (by decide)
  have e2 := alloc_retry_step_ok (fun n => decide (n ≥ 2)) 2 [] (by decide)
  rw [e0, e1, e2]
  exact ⟨by decide, by decide, rfl, rfl⟩

set_option maxRecDepth 4000 in
/-- Helper: `ppgtt_set_guest_page_sync` removes exactly the processed
page from the per-vGPU out-of-sync list (gtt.c:1264 `list_del_init`). -/
theorem ppgtt_set_guest_page_sync_vmList (env : OosEnv) (s : OosVmState)
    (id : Nat) (s1 : OosVmState)
    (h : ppgtt_set_guest_page_sync env s id = .ok s1) :
    s1.vmList = s.vmList.erase id := by
  unfold ppgtt_set_guest_page_sync at h
  cases hw : env.setWpRes id with
  | error c => simp only [hw] at h; exact absurd h (by simp)
  | ok u =>
      simp only [hw] at h
      cases hs : sync_oos_page env { s.pages id with writeprotection := true }
          s.p2m with
      | error c => simp only [hs] at h; exact absurd h (by simp)
      | ok p =>
          obtain ⟨r2, cache2⟩ := p
          simp only [hs] at h
          obtain rfl := (Except.ok.injEq _ _).mp h
          rfl

/-- Helper: running the sync loop over the very list held in the state
leaves the out-of-sync list empty: each iteration deletes its own
element. -/
theorem sync_oos_pages_loop_empties (env : OosEnv) :
    ∀ (l : List Nat) (s s2 : OosVmState), s.vmList = l →
      sync_oos_pages_loop env s l = .ok s2 → s2.vmList = [] := by
  intro l
  induction l with
  | nil =>
      intro s s2 hl h
      simp only [sync_oos_pages_loop] at h
      obtain rfl := (Except.ok.injEq _ _).mp h
      exact hl
  | cons id rest ih =>
      intro s s2 hl h
      simp only [sync_oos_pages_loop] at h
      cases hstep : ppgtt_set_guest_page_sync env s id with
      | error c => simp only [hstep] at h; exact absurd h (by simp)
      | ok s1 =>
          simp only [hstep] at h
          refine ih s1 s2 ?_ h
          rw [ppgtt_set_guest_page_sync_vmList env s id s1 hstep, hl]
          exact List.erase_cons_head id rest

/-- C6: syncing the out-of-sync pages is idempotent — a successful
`intel_vgpu_sync_oos_pages` empties the per-vGPU out-of-sync list, so an
immediately repeated invocation (no intervening guest writes) finds the
list empty and returns the state unchanged, performing no shadow
mutation. -/
theorem sync_oos_pages_idempotent (env : OosEnv) (s s1 : OosVmState)
    (h : intel_vgpu_sync_oos_pages env s = .ok s1) :
    intel_vgpu_sync_oos_pages env s1 = .ok s1 := by
  by_cases he : env.enableOos = true
  · simp only [intel_vgpu_sync_oos_pages, he, Bool.not_true,
      Bool.false_eq_true, if_false] at h ⊢
    have hnil : s1.vmList = [] :=
      sync_oos_pages_loop_empties env s.vmList s s1 rfl h
    rw [hnil]
    rfl
  · have he2 : env.enableOos = false := by simpa using he
    simp only [intel_vgpu_sync_oos_pages, he2, Bool.not_false, if_true] at h
    obtain rfl := (Except.ok.injEq _ _).mp h
    simp [intel_vgpu_sync_oos_pages, he2]

/-- C6 (witness): on the concrete state whose out-of-sync list a prior
successful sync left empty, a repeated sync returns the state
unchanged. -/
theorem sync_oos_pages_idempotent_witness :
    intel_vgpu_sync_oos_pages oosEnvW oosStW = .ok oosStW :=
  sync_oos_pages_idempotent oosEnvW oosStW oosStW rfl

/-- Helper: one step of the translation loop is exactly a spec-side
level read (shadow read for an intermediate level, guest read for the
final level, per the `guest` flag the loop computes). -/
theorem gma_walk_cons (tbl : SptTable) (mm : MMObj) (e : GttEntry)
    (idx : Nat) (g : Bool) (rest : List (Nat × Bool)) :
    gma_walk tbl mm e ((idx, g) :: rest) =
      (if g then spec_read_guest_level tbl mm e idx
       else spec_read_shadow_level tbl mm e idx).bind
        (fun e2 => gma_walk tbl mm e2 rest) := by
  cases g <;>
  · simp only [gma_walk, ppgtt_get_next_level_entry, spec_read_shadow_level,
      spec_read_guest_level, if_true, if_false, Bool.not_true, Bool.not_false]
    by_cases hs : mm.hasShadowPageTable = true
    · simp only [hs, Bool.not_true, Bool.false_eq_true, if_false]
      cases htb : tbl.spts (gen8_gtt_get_pfn e) with
      | none => simp
      | some s =>
          simp only [Bool.not_true, Bool.not_false, if_true, if_false]
          by_cases hpres : gen8_gtt_test_present (spt_shadow_entry s idx) = true
            <;> by_cases hpres2 : gen8_gtt_test_present (spt_guest_entry s idx) = true
            <;> simp [hpres, hpres2]
    · have hs2 : mm.hasShadowPageTable = false := by simpa using hs
      simp [hs2]

/-- C1 (amended): `intel_vgpu_gma_to_gpa` equals the spec-side chaser
`gma_to_gpa_spec`: for a GGTT mm it reads the guest GGTT entry after a
range check; for a PPGTT mm it walks the per-level indices top-down
reading *shadow* entries at every level except the final one, which it
reads from the *guest* page (the result is a guest physical address);
whenever a shadow page cannot be found or a walked entry is not present
— and for any unsupported mm type or paging level — it returns the
invalid-address sentinel, never a partial or stale address. -/
theorem gma_to_gpa_eq_spec (env : GGTTEnv) (tbl : SptTable) (mm : MMObj)
    (gma : Nat) :
    intel_vgpu_gma_to_gpa env tbl mm gma =
      (gma_to_gpa_spec env tbl mm gma).getD INTEL_GVT_INVALID_ADDR := by
  have hnil : ∀ e, gma_walk tbl mm e [] = some e := fun e => rfl
  by_cases hg : mm.typ = INTEL_GVT_MM_GGTT
  · have h1 : ¬(mm.typ ≠ INTEL_GVT_MM_GGTT ∧ mm.typ ≠ INTEL_GVT_MM_PPGTT) := by
      simp [hg]
    unfold intel_vgpu_gma_to_gpa gma_to_gpa_spec
    rw [if_neg h1, if_pos hg, if_pos hg]
    cases hv : vgpu_gmadr_is_valid env gma <;> simp [hv]
  · by_cases hp : mm.typ = INTEL_GVT_MM_PPGTT
    · have h1 : ¬(mm.typ ≠ INTEL_GVT_MM_GGTT ∧ mm.typ ≠ INTEL_GVT_MM_PPGTT) := by
        simp [hp]
      unfold intel_vgpu_gma_to_gpa gma_to_gpa_spec
      rw [if_neg h1, if_neg hg, if_neg hg, if_pos hp]
      by_cases h4 : mm.pageTableLevel = 4
      · rw [if_pos h4, if_pos h4]
        simp only [gma_walk_cons, hnil, Bool.false_eq_true, if_false,
          eq_self_iff_true, if_true]
        cases spec_read_shadow_level tbl mm (ppgtt_get_shadow_root_entry mm 0)
            (gen8_gma_to_pml4_index gma) with
        | none => simp
        | some e1 =>
            simp only [Option.some_bind]
            cases spec_read_shadow_level tbl mm e1
                (gen8_gma_to_l4_pdp_index gma) with
            | none => simp
            | some e2 =>
                simp only [Option.some_bind]
                cases spec_read_shadow_level tbl mm e2
                    (gen8_gma_to_pde_index gma) with
                | none => simp
                | some e3 =>
                    simp only [Option.some_bind]
                    cases spec_read_guest_level tbl mm e3
                        (gen8_gma_to_pte_index gma) with
                    | none => simp
                    | some e4 => simp
      · rw [if_neg h4, if_neg h4]
        by_cases h3 : mm.pageTableLevel = 3
        · rw [if_pos h3, if_pos h3]
          simp only [gma_walk_cons, hnil, Bool.false_eq_true, if_false,
            eq_self_iff_true, if_true]
          cases spec_read_shadow_level tbl mm
              (ppgtt_get_shadow_root_entry mm (gen8_gma_to_l3_pdp_index gma))
              (gen8_gma_to_pde_index gma) with
          | none => simp
          | some e1 =>
              simp only [Option.some_bind]
              cases spec_read_guest_level tbl mm e1
                  (gen8_gma_to_pte_index gma) with
              | none => simp
              | some e2 => simp
        · rw [if_neg h3, if_neg h3]
          by_cases h2 : mm.pageTableLevel = 2
          · rw [if_pos h2, if_pos h2]
            simp only [gma_walk_cons, hnil, Bool.false_eq_true, if_false,
              eq_self_iff_true, if_true]
            cases spec_read_guest_level tbl mm
                (ppgtt_get_shadow_root_entry mm (gen8_gma_to_pde_index gma))
                (gen8_gma_to_pte_index gma) with
            | none => simp
            | some e1 => simp
          · rw [if_neg h2, if_neg h2]
            simp
    · have h1 : mm.typ ≠ INTEL_GVT_MM_GGTT ∧ mm.typ ≠ INTEL_GVT_MM_PPGTT :=
        ⟨hg, hp⟩
      unfold intel_vgpu_gma_to_gpa gma_to_gpa_spec
      rw [if_pos h1, if_neg hg, if_neg hp]
      rfl

/-- C1 (counterexample): the claim as stated — the walk reads shadow
entries at *every* level — is false: on a concrete 3-level mm whose
leaf-level shadow entry (frame 9) and guest entry (frame 7) differ,
`intel_vgpu_gma_to_gpa` returns the address derived from the *guest*
leaf entry (0x7000), not the one the all-shadow reading would produce
(0x9000). -/
theorem gma_to_gpa_reads_guest_leaf :
    intel_vgpu_gma_to_gpa envW tbl3 mm3 0 = 0x7000 ∧
    gma_to_gpa_claim_all_shadow envW tbl3 mm3 0 = some 0x9000 ∧
    (0x7000 : Nat) ≠ 0x9000 :=
  ⟨by decide, by decide, by decide⟩

/-- C3 (counterexample): the claim as stated fails on the GGTT MMIO
write path.  A present GGTT entry for gfn 7 — untranslatable by the
hypervisor, and not short-circuited by the translation cache (it holds
gfn 5) — does *not* fail the operation: `emulate_gtt_mmio_write`
returns success and silently redirects the shadow entry to the scratch
GGTT frame (gtt.c:2155-2168). -/
theorem ggtt_write_masks_translation_failure :
    envW.hyp 7 = INTEL_GVT_INVALID_ADDR ∧
    gen8_gtt_test_present (GttEntry.mk GTT_TYPE_GGTT_PTE 0x7001) = true ∧
    (emulate_gtt_mmio_write envW stW 0 0x7001 8).toOption.isSome = true ∧
    (emulate_gtt_mmio_write envW stW 0 0x7001 8).toOption.map
        (fun s => gen8_gtt_get_pfn { typ := GTT_TYPE_GGTT_PTE, val64 := s.shadowTable 0 })
      = some envW.scratchGgttMfn := by
  refine ⟨by decide, by decide, by decide, by decide⟩

end GvtGtt
